import Mathlib

/-!
# Verification of the webgpu-debugger replay engine (src/src/replay/lib.ts)

This file is a shallow embedding, in Lean 4, of the replay engine of the
webgpu-debugger repository: trace-side data (serial-addressed descriptors and
commands), command resolution into the in-memory command tree, the replay
driver (full execution, replay-to-path), the command enumerator, and the
resource reconstruction steps the claims touch (buffers, textures, bind-group
layouts, render pipelines).

Modelling conventions, chosen once and used throughout:

* JavaScript numbers that the code only carries (never computes with) are
  modelled as `Nat` or `Int`; array indices and loop counters are `Nat`
  (the only arithmetic the code performs on them is `+ 1`, `- 1` and
  comparisons, which agree with JS small-integer arithmetic in every state
  the functions reach; the one delicate spot, `commandBufferIndex - 1` in
  `ReplayQueue.replaySubmitTo`, agrees because both JS (`i < -1`) and Nat
  (`i < 0`) run the loop zero times when the index is 0).
* `path.shift()` is modelled as `List.head?` plus continuing with
  `List.tail`; `shift` on an empty array returns `undefined`, modelled as
  `none`.  JS comparisons with `undefined` (`0 <= undefined` is false,
  `undefined !== 0` is true) are modelled by matching on the `Option`.
* Reading a property of `undefined` throws a `TypeError` in JS; this is
  modelled with an explicit `JsErr` result component.  Operations performed
  before the throw keep their effects (JS exceptions do not roll back).
* `console.assert` and `console.warn` never throw and never alter control
  flow in a browser; in the resolution functions, where the claims speak
  about errors being *reported*, the emitted messages are modelled as a
  `List LogEntry` result component; in the encode/replay functions (where no
  claim depends on the logs) they are noted in comments and produce nothing.
* `window.structuredClone` produces a deep copy; since Lean values are
  immutable, cloning is the identity and mutation of a clone is modelled by
  building the new value directly.  Mutation of a *shared* object (the one
  place the code does it, `ReplayRenderPipeline.recreate` writing into the
  trace descriptor) is modelled by returning the updated descriptor next to
  the wrapper, so the post-load trace is an explicit result.
* Live GPU objects are modelled by the free term model `GpuHandle`: every
  creation call returns a handle built from the creating descriptor, and
  `GPURenderPipeline.getBindGroupLayout` is an injective query constructor.
* Registry lookups (`this.replay.buffers[serial]` and friends) are modelled
  as total functions from serials; a missing serial yields `undefined` in JS
  and would fault at the subsequent property access — no claim exercises
  missing serials, and the theorems quantify over arbitrary registries.
-/

/-- A thrown JavaScript runtime error (the modelled code can only throw
`TypeError`, by reading a property of `undefined`). -/
inductive JsErr where
  | typeError (msg : String)
  deriving DecidableEq, Repr

/-- A `console.assert(false, msg)` or `console.warn(msg)` emission.  These are
non-fatal in JS: they log and execution continues. -/
inductive LogEntry where
  | assertFail (msg : String)
  | warn (msg : String)
  deriving DecidableEq, Repr

/-- `GPUExtent3DDictFull`. -/
structure Extent3D where
  width : Nat
  height : Nat
  depthOrArrayLayers : Nat
  deriving DecidableEq, Repr

/-- `GPUColorDict` payload (carried verbatim, never computed with). -/
structure ColorVal where
  r : Int
  g : Int
  b : Int
  a : Int
  deriving DecidableEq, Repr

/-- Arguments of `draw`. -/
structure DrawArgs where
  vertexCount : Nat
  instanceCount : Nat
  firstVertex : Nat
  firstInstance : Nat
  deriving DecidableEq, Repr

/-- Arguments of `drawIndexed`. -/
structure DrawIndexedArgs where
  indexCount : Nat
  instanceCount : Nat
  firstIndex : Nat
  baseVertex : Int
  firstInstance : Nat
  deriving DecidableEq, Repr

/-- Arguments of `setViewport` (floats in the API; carried verbatim). -/
structure ViewportArgs where
  x : Int
  y : Int
  width : Int
  height : Int
  minDepth : Int
  maxDepth : Int
  deriving DecidableEq, Repr

/-- A reference to a raw data blob in the trace: `serial` keys
`trace.data`, `size` is the recorded byte length (checked only by a
`console.assert` in `Replay.getData`). -/
structure TraceDataRef where
  serial : Nat
  size : Nat
  deriving DecidableEq, Repr

/-- `GPUImageDataLayout` (an absent `offset` is recorded as 0; `execute`
overwrites it with 0 before calling `writeTexture`). -/
structure DataLayout where
  offset : Nat
  bytesPerRow : Option Nat
  rowsPerImage : Option Nat
  deriving DecidableEq, Repr

/-- One subresource of recorded texture initial data
(`TraceTextureInitialData`). -/
structure TraceTextureInitialData where
  data : TraceDataRef
  mipLevel : Nat
  bytesPerRow : Nat
  deriving DecidableEq, Repr

/-- `TraceBuffer`: the serialized buffer descriptor. -/
structure TraceBuffer where
  deviceSerial : Nat
  usage : Nat
  size : Nat
  state : String
  initialData : Option TraceDataRef
  deriving DecidableEq, Repr

/-- `TraceTexture`: the serialized texture descriptor. -/
structure TraceTexture where
  deviceSerial : Nat
  size : Extent3D
  format : String
  sampleCount : Nat
  mipLevelCount : Nat
  dimension : Option String
  usage : Nat
  state : String
  initialData : Option (List TraceTextureInitialData)
  viewFormats : List String
  swapChainId : Option String
  deriving DecidableEq, Repr

/-- `TraceShaderModule`. -/
structure TraceShaderModule where
  deviceSerial : Nat
  code : String
  deriving DecidableEq, Repr

/-- `TraceBindGroupLayout`.  An *implicit* layout (recorded from a pipeline
with `layout: auto`) has no `entries` and instead records the owning
pipeline and group index; an explicit one has `entries`.  The source detects
implicitness by `entries === undefined`. -/
structure TraceBindGroupLayout where
  deviceSerial : Nat
  entries : Option (List Nat)
  renderPipelineSerial : Nat
  groupIndex : Nat
  deriving DecidableEq, Repr

/-- The `layout` field of a trace render-pipeline descriptor: `auto`, or
absent (with `layoutSerial` holding the explicit layout serial), or — after
`ReplayRenderPipeline.recreate` has run — overwritten with the resolved
pipeline-layout wrapper (identified here by its serial). -/
inductive TraceLayoutField where
  | auto
  | absent
  | wrapper (pipelineLayoutSerial : Nat)
  deriving DecidableEq, Repr

/-- A programmable stage of a trace render-pipeline descriptor.  `module` is
absent in a freshly captured trace; `ReplayRenderPipeline.recreate` writes the
resolved shader-module wrapper into it (identified here by its wrapper key). -/
structure TraceProgrammableStage where
  moduleSerial : Nat
  module : Option Nat
  entryPoint : String
  deriving DecidableEq, Repr

/-- `TraceRenderPipeline`.  The `primitive`, `depthStencil` and `multisample`
fields are opaque payloads the engine copies without inspecting. -/
structure TraceRenderPipeline where
  deviceSerial : Nat
  label : Option String
  vertex : TraceProgrammableStage
  fragment : Option TraceProgrammableStage
  layout : TraceLayoutField
  layoutSerial : Option Nat
  primitive : Option String
  depthStencil : Option String
  multisample : Option String
  deriving DecidableEq, Repr

/-- Free term model of live WebGPU objects: each creation call is an
injective constructor applied to the creating arguments, and
`getBindGroupLayout` is an injective query on a pipeline handle. -/
inductive GpuHandle where
  | adapter (serial : Nat)
  | device (serial : Nat)
  | queueOf (deviceSerial : Nat)
  | createdShaderModule (deviceSerial : Nat) (code : String)
  | createdBindGroupLayout (desc : TraceBindGroupLayout)
  | pipelineLayoutOf (serial : Nat)
  | createdRenderPipeline (deviceSerial : Nat) (vertexModuleCode : String)
      (fragmentModuleCode : Option String) (layoutSerial : Option Nat)
  | createdBuffer (desc : TraceBuffer)
  | createdTexture (desc : TraceTexture)
  | textureViewOf (serial : Nat)
  | samplerOf (serial : Nat)
  | querySetOf (serial : Nat)
  | bindGroupOf (serial : Nat)
  | bufferOf (serial : Nat)
  | textureOf (serial : Nat)
  | renderPipelineOf (serial : Nat)
  | getBindGroupLayout (pipeline : GpuHandle) (groupIndex : Nat)
  deriving DecidableEq, Repr

/-! ## Resolved wrapper references

These are the projections of the wrapper objects that the resolved command
tree and the replay driver actually read: the live handle (`webgpuObject`)
plus the fields `ReplayRenderPass.encodeUpTo` consults (`texture.size`,
`baseMipLevel`).  The serial identifies the wrapper for equality purposes. -/

/-- Projection of a `ReplayTexture` wrapper used by resolved commands. -/
structure ReplayTextureRef where
  serial : Nat
  size : Extent3D
  webgpuObject : GpuHandle
  deriving DecidableEq, Repr

/-- Projection of a `ReplayTextureView` wrapper used by resolved commands. -/
structure ReplayTextureViewRef where
  serial : Nat
  texture : ReplayTextureRef
  baseMipLevel : Nat
  webgpuObject : GpuHandle
  deriving DecidableEq, Repr

/-- Projection of a `ReplayBuffer` wrapper used by resolved commands. -/
structure ReplayBufferRef where
  serial : Nat
  webgpuObject : GpuHandle
  deriving DecidableEq, Repr

/-- Projection of a `ReplayBindGroup` wrapper used by resolved commands. -/
structure ReplayBindGroupRef where
  serial : Nat
  webgpuObject : GpuHandle
  deriving DecidableEq, Repr

/-- Projection of a `ReplayRenderPipeline` wrapper used by resolved commands. -/
structure ReplayPipelineRef where
  serial : Nat
  webgpuObject : GpuHandle
  deriving DecidableEq, Repr

/-- Projection of a `ReplayQuerySet` wrapper used by resolved commands. -/
structure ReplayQuerySetRef where
  serial : Nat
  webgpuObject : GpuHandle
  deriving DecidableEq, Repr

/-- Projection of a `ReplayQueue` wrapper used by the replay driver:
`executeSubmit`/`replaySubmitTo` read `this.device.webgpuObject` (to create
the command encoder) and `this.webgpuObject` (to submit). -/
structure ReplayQueueRef where
  device : GpuHandle
  webgpuObject : GpuHandle
  deriving DecidableEq, Repr

/- A `ReplayCommandBuffer` wrapper is referenced by a resolved `queueSubmit`
through its resolved command list only; it is defined after the command types
below as `ReplayCommandBufferModel`. -/

/-! ## Trace-side commands (serial-addressed) -/

/-- A color attachment inside a trace `beginRenderPass`. -/
structure TraceColorAttachment where
  viewSerial : Nat
  resolveTargetSerial : Option Nat
  clearValue : ColorVal
  loadOp : String
  storeOp : String
  deriving DecidableEq, Repr

/-- A depth-stencil attachment inside a trace `beginRenderPass`. -/
structure TraceDSAttachment where
  viewSerial : Nat
  depthClearValue : Int
  depthLoadOp : Option String
  depthStoreOp : Option String
  depthReadOnly : Bool
  stencilClearValue : Int
  stencilLoadOp : Option String
  stencilStoreOp : Option String
  stencilReadOnly : Bool
  deriving DecidableEq, Repr

/-- A timestamp write inside a trace `beginRenderPass`. -/
structure TraceTimestampWrite where
  querySetSerial : Nat
  queryIndex : Nat
  location : String
  deriving DecidableEq, Repr

/-- Arguments of a trace `beginRenderPass`. -/
structure TraceBeginRenderPassArgs where
  colorAttachments : List TraceColorAttachment
  depthStencilAttachment : Option TraceDSAttachment
  timestampWrites : List TraceTimestampWrite
  occlusionQuerySetSerial : Option Nat
  maxDrawCount : Nat
  deriving DecidableEq, Repr

/-- A trace image-copy-buffer operand (`source` of `copyBufferToTexture`). -/
structure TraceImageCopyBuffer where
  bufferSerial : Nat
  offset : Nat
  bytesPerRow : Option Nat
  rowsPerImage : Option Nat
  deriving DecidableEq, Repr

/-- A trace image-copy-texture operand. -/
structure TraceImageCopyTexture where
  textureSerial : Nat
  mipLevel : Nat
  origin : Option (List Nat)
  aspect : Option String
  deriving DecidableEq, Repr

/-- One command of a trace command-buffer descriptor (the flat encoder
stream that `ReplayCommandBuffer.consumeCommands` and
`ReplayRenderPass.consumeCommands` walk).  `other` stands for any command
kind outside the recognized set; resolution dispatches purely on the name, so
only the name of such a command matters. -/
inductive TraceEncCmd where
  | beginRenderPass (args : TraceBeginRenderPassArgs)
  | endPass
  | draw (args : DrawArgs)
  | drawIndexed (args : DrawIndexedArgs)
  | setBindGroup (index : Nat) (bindGroupSerial : Nat) (dynamicOffsets : Option (List Nat))
  | setIndexBuffer (bufferSerial : Nat) (indexFormat : String) (offset : Nat) (size : Nat)
  | setPipeline (pipelineSerial : Nat)
  | setVertexBuffer (slot : Nat) (bufferSerial : Nat) (offset : Nat) (size : Nat)
  | setViewport (args : ViewportArgs)
  | pushDebugGroup (groupLabel : String)
  | popDebugGroup
  | setScissorRect (x : Nat) (y : Nat) (width : Nat) (height : Nat)
  | copyBufferToTexture (source : TraceImageCopyBuffer) (destination : TraceImageCopyTexture)
      (copySize : Extent3D)
  | copyTextureToTexture (source : TraceImageCopyTexture) (destination : TraceImageCopyTexture)
      (copySize : Extent3D)
  | other (name : String)
  deriving DecidableEq, Repr

/-- The destination record of a trace `queueWriteTexture`. -/
structure TraceWriteTextureDestination where
  textureSerial : Nat
  mipLevel : Nat
  origin : Option (List Nat)
  aspect : Option String
  deriving DecidableEq, Repr

/-- One top-level command of `trace.commands`.  `other` stands for any
command kind outside the recognized set (dispatch is by name only). -/
inductive TraceQueueCommand where
  | queueSubmit (queueSerial : Nat) (commandBufferSerials : List Nat)
  | queueWriteBuffer (queueSerial : Nat) (bufferSerial : Nat) (bufferOffset : Nat)
      (data : TraceDataRef)
  | queueWriteTexture (queueSerial : Nat) (destination : TraceWriteTextureDestination)
      (data : TraceDataRef) (dataLayout : DataLayout) (size : Extent3D)
  | present (textureSerial : Nat) (canvasContextSerial : Nat)
  | textureDestroy (textureSerial : Nat)
  | bufferUpdateData (bufferSerial : Nat) (updates : List Nat)
  | bufferUnmap (bufferSerial : Nat)
  | other (name : String)
  deriving DecidableEq, Repr

/-! ## Resolved commands (wrapper-addressed) -/

/-- A resolved color attachment (`viewSerial` replaced by the wrapper and the
live view handle; `delete a.viewSerial` removes the serial field). -/
structure ReplayColorAttachment where
  view : GpuHandle
  viewState : ReplayTextureViewRef
  resolveTarget : Option GpuHandle
  resolveTargetState : Option ReplayTextureViewRef
  clearValue : ColorVal
  loadOp : String
  storeOp : String
  deriving DecidableEq, Repr

/-- A resolved depth-stencil attachment. -/
structure ReplayDSAttachment where
  view : GpuHandle
  viewState : ReplayTextureViewRef
  depthClearValue : Int
  depthLoadOp : Option String
  depthStoreOp : Option String
  depthReadOnly : Bool
  stencilClearValue : Int
  stencilLoadOp : Option String
  stencilStoreOp : Option String
  stencilReadOnly : Bool
  deriving DecidableEq, Repr

/-- A resolved timestamp write.  NOTE (source quirk, lines 947-951): the
resolution loop executes `w.querySet = w.querySet.webgpuObject` — reading
`webgpuObject` from the not-yet-assigned `w.querySet` (that is, from
`undefined`), which throws a `TypeError`.  Consequently a `beginRenderPass`
with a non-empty `timestampWrites` list cannot be resolved at all; this
structure exists only to give the field a type. -/
structure ReplayTimestampWrite where
  querySetState : ReplayQuerySetRef
  queryIndex : Nat
  location : String
  deriving DecidableEq, Repr

/-- Resolved `beginRenderPass` arguments.  NOTE (source quirk, line 955):
`occlusionQuerySet` is assigned the *wrapper* (`occlusionQuerySetState`), not
its live handle; the model mirrors that by storing the wrapper reference in
both fields. -/
structure ReplayBeginRenderPassArgs where
  colorAttachments : List ReplayColorAttachment
  depthStencilAttachment : Option ReplayDSAttachment
  timestampWrites : List ReplayTimestampWrite
  occlusionQuerySetState : Option ReplayQuerySetRef
  occlusionQuerySet : Option ReplayQuerySetRef
  maxDrawCount : Nat
  deriving DecidableEq, Repr

/-- A resolved image-copy-buffer operand.  NOTE (source quirk, lines
966-968): the code assigns `c.args.source.buffer = bufferState.webgpuObject`
and then executes `delete c.args.source.buffer` — deleting the field it just
assigned instead of `bufferSerial`.  The resolved operand therefore keeps the
serial and has no `buffer` field, which the model mirrors. -/
structure ReplayImageCopyBufferOperand where
  bufferState : ReplayBufferRef
  bufferSerial : Nat
  offset : Nat
  bytesPerRow : Option Nat
  rowsPerImage : Option Nat
  deriving DecidableEq, Repr

/-- A resolved image-copy-texture operand (same `delete` quirk as the buffer
operand: the `texture` field is deleted right after being assigned, the
serial survives). -/
structure ReplayImageCopyTextureOperand where
  textureState : ReplayTextureRef
  textureSerial : Nat
  mipLevel : Nat
  origin : Option (List Nat)
  aspect : Option String
  deriving DecidableEq, Repr

/-- A resolved render-pass command, as stored in
`ReplayRenderPass.commands`.  `other` is an unrecognized command pushed
as-is by the `default` branch of `consumeCommands` (dispatch everywhere else
is by name, so only its name is retained). -/
inductive RPCommand where
  | beginRenderPass (args : ReplayBeginRenderPassArgs)
  | endPass
  | draw (args : DrawArgs)
  | drawIndexed (args : DrawIndexedArgs)
  | setBindGroup (index : Nat) (bindGroup : ReplayBindGroupRef)
      (dynamicOffsets : Option (List Nat))
  | setIndexBuffer (buffer : ReplayBufferRef) (indexFormat : String) (offset : Nat) (size : Nat)
  | setPipeline (pipeline : ReplayPipelineRef)
  | setVertexBuffer (slot : Nat) (buffer : ReplayBufferRef) (offset : Nat) (size : Nat)
  | setViewport (args : ViewportArgs)
  | pushDebugGroup (groupLabel : String)
  | popDebugGroup
  | other (name : String)
  deriving DecidableEq, Repr

/-- The resolved command list of a `ReplayRenderPass` wrapper. -/
structure ReplayRenderPassModel where
  commands : List RPCommand
  deriving DecidableEq, Repr

/-- A resolved command-buffer command, as stored in
`ReplayCommandBuffer.commands`.  `renderPass` is the pseudo-command holding a
whole render pass; `other` is an unrecognized command pushed as-is by the
`default` branch of `consumeCommands`. -/
inductive CBCommand where
  | renderPass (renderPass : ReplayRenderPassModel)
  | copyBufferToTexture (source : ReplayImageCopyBufferOperand)
      (destination : ReplayImageCopyTextureOperand) (copySize : Extent3D)
  | copyTextureToTexture (source : ReplayImageCopyTextureOperand)
      (destination : ReplayImageCopyTextureOperand) (copySize : Extent3D)
  | pushDebugGroup (groupLabel : String)
  | popDebugGroup
  | other (name : String)
  deriving DecidableEq, Repr

/-- The resolved command list of a `ReplayCommandBuffer` wrapper. -/
structure ReplayCommandBufferModel where
  commands : List CBCommand
  deriving DecidableEq, Repr

/-- The resolved destination record of a `queueWriteTexture` (built by
`Replay.load`: the wrapper, its live handle, and the copied scalar fields). -/
structure ReplayWriteTextureDestination where
  textureState : ReplayTextureRef
  texture : GpuHandle
  mipLevel : Nat
  origin : Option (List Nat)
  aspect : Option String
  deriving DecidableEq, Repr

/-- A resolved top-level queue command (`ReplayQueueCommand` in the source).
`badCommand` is the placeholder `Replay.load` substitutes for an
unrecognized trace command kind. -/
inductive ReplayQueueCommand where
  | queueSubmit (queue : ReplayQueueRef) (commandBuffers : List ReplayCommandBufferModel)
  | queueWriteBuffer (queue : ReplayQueueRef) (buffer : ReplayBufferRef) (bufferOffset : Nat)
      (data : TraceDataRef)
  | queueWriteTexture (queue : ReplayQueueRef) (destination : ReplayWriteTextureDestination)
      (data : TraceDataRef) (dataLayout : DataLayout) (size : Extent3D)
  | present (texture : ReplayTextureRef) (canvasContextSerial : Nat)
  | textureDestroy (texture : ReplayTextureRef)
  | bufferUpdateData (buffer : ReplayBufferRef) (updates : List Nat)
  | bufferUnmap (buffer : ReplayBufferRef)
  | badCommand
  deriving DecidableEq, Repr

/-! ## The registry (serial → wrapper lookups used during resolution) -/

/-- The lookup side of the `Replay` object that command resolution uses:
`this.replay.<category>[serial]`.  Modelled as total functions (see the file
header). -/
structure Registry where
  queues : Nat → ReplayQueueRef
  buffers : Nat → ReplayBufferRef
  textures : Nat → ReplayTextureRef
  textureViews : Nat → ReplayTextureViewRef
  bindGroups : Nat → ReplayBindGroupRef
  renderPipelines : Nat → ReplayPipelineRef
  querySets : Nat → ReplayQuerySetRef
  commandBuffers : Nat → ReplayCommandBufferModel

/-! ## Command resolution (`consumeCommands`, `Replay.load` command map)

`ReplayRenderPass.consumeCommands` walks the shared command iterator until it
sees `endPass`, resolving serial references as it goes; the remaining stream
is returned so that `ReplayCommandBuffer.consumeCommands` can continue on it
(the two share one iterator in the source). -/


/-- Result triple of the render-pass consumption walk: resolved commands,
unconsumed remainder of the shared stream, log. -/
abbrev RPConsumed := List RPCommand × List TraceEncCmd × List LogEntry

/-- `this.commands.push(c)` for a recognized, resolved render-pass command. -/
def RPConsumed.push (c : RPCommand) (r : RPConsumed) : RPConsumed :=
  (c :: r.1, r.2.1, r.2.2)

/-- The `default` branch: `console.assert(false, ...)` (reported, non-fatal)
followed by `this.commands.push(c)` — the unrecognized command is retained;
only its name is ever consulted again. -/
def RPConsumed.pushReported (name : String) (r : RPConsumed) : RPConsumed :=
  (RPCommand.other name :: r.1, r.2.1,
    LogEntry.assertFail ("Unhandled render pass command type " ++ name) :: r.2.2)

/-- The body of `ReplayRenderPass.consumeCommands` after the begin-marker has
been pushed: walk the stream, resolve serial references, stop after pushing
`endPass`; an exhausted stream without `endPass` is reported by the final
`console.assert` (non-fatal: the pass is still produced, unterminated). -/
def ReplayRenderPass.consumeCommandsAux (replay : Registry) :
    List TraceEncCmd → RPConsumed
  | [] => ([], [],
      [LogEntry.assertFail "BeginRenderPass command does not have an associated EndPass."])
  | c :: rest =>
    match c with
    | .endPass => ([RPCommand.endPass], rest, [])
    | .setBindGroup index bindGroupSerial dynamicOffsets =>
      RPConsumed.push (RPCommand.setBindGroup index (replay.bindGroups bindGroupSerial) dynamicOffsets)
        (ReplayRenderPass.consumeCommandsAux replay rest)
    | .setIndexBuffer bufferSerial indexFormat offset size =>
      RPConsumed.push (RPCommand.setIndexBuffer (replay.buffers bufferSerial) indexFormat offset size)
        (ReplayRenderPass.consumeCommandsAux replay rest)
    | .setPipeline pipelineSerial =>
      RPConsumed.push (RPCommand.setPipeline (replay.renderPipelines pipelineSerial))
        (ReplayRenderPass.consumeCommandsAux replay rest)
    | .setVertexBuffer slot bufferSerial offset size =>
      RPConsumed.push (RPCommand.setVertexBuffer slot (replay.buffers bufferSerial) offset size)
        (ReplayRenderPass.consumeCommandsAux replay rest)
    | .draw args =>
      RPConsumed.push (RPCommand.draw args) (ReplayRenderPass.consumeCommandsAux replay rest)
    | .drawIndexed args =>
      RPConsumed.push (RPCommand.drawIndexed args) (ReplayRenderPass.consumeCommandsAux replay rest)
    | .setViewport args =>
      RPConsumed.push (RPCommand.setViewport args) (ReplayRenderPass.consumeCommandsAux replay rest)
    | .pushDebugGroup groupLabel =>
      RPConsumed.push (RPCommand.pushDebugGroup groupLabel)
        (ReplayRenderPass.consumeCommandsAux replay rest)
    | .popDebugGroup =>
      RPConsumed.push RPCommand.popDebugGroup (ReplayRenderPass.consumeCommandsAux replay rest)
    | .beginRenderPass _ =>
      RPConsumed.pushReported "beginRenderPass" (ReplayRenderPass.consumeCommandsAux replay rest)
    | .setScissorRect _ _ _ _ =>
      RPConsumed.pushReported "setScissorRect" (ReplayRenderPass.consumeCommandsAux replay rest)
    | .copyBufferToTexture _ _ _ =>
      RPConsumed.pushReported "copyBufferToTexture" (ReplayRenderPass.consumeCommandsAux replay rest)
    | .copyTextureToTexture _ _ _ =>
      RPConsumed.pushReported "copyTextureToTexture" (ReplayRenderPass.consumeCommandsAux replay rest)
    | .other name =>
      RPConsumed.pushReported name (ReplayRenderPass.consumeCommandsAux replay rest)

/-- `ReplayRenderPass.consumeCommands(beginRenderPassCommand, commandIterator)`:
push the begin-marker, then walk the stream (the `console.assert` that the
command list starts empty always passes for a freshly constructed pass). -/
def ReplayRenderPass.consumeCommands (replay : Registry)
    (beginRenderPassCommand : RPCommand) (stream : List TraceEncCmd) : RPConsumed :=
  RPConsumed.push beginRenderPassCommand (ReplayRenderPass.consumeCommandsAux replay stream)

theorem ReplayRenderPass.consumeCommandsAux_remaining_length (replay : Registry) :
    ∀ stream : List TraceEncCmd,
      (ReplayRenderPass.consumeCommandsAux replay stream).2.1.length ≤ stream.length := by
  intro stream
  induction stream with
  | nil => simp [ReplayRenderPass.consumeCommandsAux]
  | cons c rest ih =>
    cases c <;>
      simp [ReplayRenderPass.consumeCommandsAux, RPConsumed.push, RPConsumed.pushReported] <;>
      omega

/-- Resolution of the arguments of a `beginRenderPass`
(`ReplayCommandBuffer.consumeCommands`, the `beginRenderPass` case).  Returns
an error when `timestampWrites` is non-empty: the source reads
`w.querySet.webgpuObject` before `w.querySet` has been assigned (see
`ReplayTimestampWrite`), which throws. -/
def resolveBeginRenderPassArgs (replay : Registry) (args : TraceBeginRenderPassArgs) :
    Except JsErr ReplayBeginRenderPassArgs :=
  match args.timestampWrites with
  | _ :: _ => Except.error (JsErr.typeError "Cannot read properties of undefined (reading webgpuObject)")
  | [] =>
    Except.ok
      { colorAttachments := args.colorAttachments.map fun a =>
          let viewState := replay.textureViews a.viewSerial
          { view := viewState.webgpuObject
            viewState := viewState
            resolveTarget := (a.resolveTargetSerial.map fun s => (replay.textureViews s).webgpuObject)
            resolveTargetState := (a.resolveTargetSerial.map fun s => replay.textureViews s)
            clearValue := a.clearValue
            loadOp := a.loadOp
            storeOp := a.storeOp }
        depthStencilAttachment := args.depthStencilAttachment.map fun ds =>
          let viewState := replay.textureViews ds.viewSerial
          { view := viewState.webgpuObject
            viewState := viewState
            depthClearValue := ds.depthClearValue
            depthLoadOp := ds.depthLoadOp
            depthStoreOp := ds.depthStoreOp
            depthReadOnly := ds.depthReadOnly
            stencilClearValue := ds.stencilClearValue
            stencilLoadOp := ds.stencilLoadOp
            stencilStoreOp := ds.stencilStoreOp
            stencilReadOnly := ds.stencilReadOnly }
        timestampWrites := []
        occlusionQuerySetState := args.occlusionQuerySetSerial.map fun s => replay.querySets s
        occlusionQuerySet := args.occlusionQuerySetSerial.map fun s => replay.querySets s
        maxDrawCount := args.maxDrawCount }

/-- Result triple of the command-buffer consumption walk: resolved commands,
log, and a possible thrown error (which aborts the walk). -/
abbrev CBConsumed := List CBCommand × List LogEntry × Option JsErr

/-- `this.commands.push(c)` for a recognized, resolved encoder command. -/
def CBConsumed.push (c : CBCommand) (r : CBConsumed) : CBConsumed :=
  (c :: r.1, r.2.1, r.2.2)

/-- The `default` branch: report (`console.assert`) and push the
unrecognized command as-is. -/
def CBConsumed.pushReported (name : String) (r : CBConsumed) : CBConsumed :=
  (CBCommand.other name :: r.1,
    LogEntry.assertFail ("Unhandled command encoder command " ++ name) :: r.2.1, r.2.2)

/-- Prepend log entries produced before the tail was consumed. -/
def CBConsumed.withLog (log : List LogEntry) (r : CBConsumed) : CBConsumed :=
  (r.1, log ++ r.2.1, r.2.2)

/-- `ReplayCommandBuffer.consumeCommands`: walk the whole stream; a
`beginRenderPass` seeds a `ReplayRenderPass` pseudo-command which consumes
the shared stream up to its `endPass`, after which this walk continues on
the remainder; copy commands resolve their operands; an unrecognized kind is
reported and pushed as-is. -/
def ReplayCommandBuffer.consumeCommands (replay : Registry) :
    (stream : List TraceEncCmd) → CBConsumed
  | [] => ([], [], none)
  | c :: rest =>
    match c with
    | .beginRenderPass args =>
      match resolveBeginRenderPassArgs replay args with
      | Except.error e => ([], [], some e)
      | Except.ok resolvedArgs =>
        let consumed := ReplayRenderPass.consumeCommands replay
          (RPCommand.beginRenderPass resolvedArgs) rest
        CBConsumed.push (CBCommand.renderPass { commands := consumed.1 })
          (CBConsumed.withLog consumed.2.2 (ReplayCommandBuffer.consumeCommands replay consumed.2.1))
    | .copyBufferToTexture source destination copySize =>
      CBConsumed.push
        (CBCommand.copyBufferToTexture
          { bufferState := replay.buffers source.bufferSerial
            bufferSerial := source.bufferSerial
            offset := source.offset
            bytesPerRow := source.bytesPerRow
            rowsPerImage := source.rowsPerImage }
          { textureState := replay.textures destination.textureSerial
            textureSerial := destination.textureSerial
            mipLevel := destination.mipLevel
            origin := destination.origin
            aspect := destination.aspect }
          copySize)
        (ReplayCommandBuffer.consumeCommands replay rest)
    | .copyTextureToTexture source destination copySize =>
      CBConsumed.push
        (CBCommand.copyTextureToTexture
          { textureState := replay.textures source.textureSerial
            textureSerial := source.textureSerial
            mipLevel := source.mipLevel
            origin := source.origin
            aspect := source.aspect }
          { textureState := replay.textures destination.textureSerial
            textureSerial := destination.textureSerial
            mipLevel := destination.mipLevel
            origin := destination.origin
            aspect := destination.aspect }
          copySize)
        (ReplayCommandBuffer.consumeCommands replay rest)
    | .pushDebugGroup groupLabel =>
      CBConsumed.push (CBCommand.pushDebugGroup groupLabel)
        (ReplayCommandBuffer.consumeCommands replay rest)
    | .popDebugGroup =>
      CBConsumed.push CBCommand.popDebugGroup (ReplayCommandBuffer.consumeCommands replay rest)
    | .endPass => CBConsumed.pushReported "endPass" (ReplayCommandBuffer.consumeCommands replay rest)
    | .draw _ => CBConsumed.pushReported "draw" (ReplayCommandBuffer.consumeCommands replay rest)
    | .drawIndexed _ =>
      CBConsumed.pushReported "drawIndexed" (ReplayCommandBuffer.consumeCommands replay rest)
    | .setBindGroup _ _ _ =>
      CBConsumed.pushReported "setBindGroup" (ReplayCommandBuffer.consumeCommands replay rest)
    | .setIndexBuffer _ _ _ _ =>
      CBConsumed.pushReported "setIndexBuffer" (ReplayCommandBuffer.consumeCommands replay rest)
    | .setPipeline _ =>
      CBConsumed.pushReported "setPipeline" (ReplayCommandBuffer.consumeCommands replay rest)
    | .setVertexBuffer _ _ _ _ =>
      CBConsumed.pushReported "setVertexBuffer" (ReplayCommandBuffer.consumeCommands replay rest)
    | .setViewport _ =>
      CBConsumed.pushReported "setViewport" (ReplayCommandBuffer.consumeCommands replay rest)
    | .setScissorRect _ _ _ _ =>
      CBConsumed.pushReported "setScissorRect" (ReplayCommandBuffer.consumeCommands replay rest)
    | .other name =>
      CBConsumed.pushReported name (ReplayCommandBuffer.consumeCommands replay rest)
  termination_by stream => stream.length
  decreasing_by
    all_goals simp_wf
    · have := ReplayRenderPass.consumeCommandsAux_remaining_length replay rest
      simp only [ReplayRenderPass.consumeCommands, RPConsumed.push] at *
      omega

/-- The `ReplayCommandBuffer` constructor: resolve the descriptor command
stream in one pass (the trailing `console.assert(commandIterator.next().done)`
always passes: the walk consumes the whole stream). -/
def ReplayCommandBuffer.construct (replay : Registry) (commands : List TraceEncCmd) :
    ReplayCommandBufferModel × List LogEntry × Option JsErr :=
  let consumed := ReplayCommandBuffer.consumeCommands replay commands
  ({ commands := consumed.1 }, consumed.2.1, consumed.2.2)

/-- One case of the `trace.commands.map` in `Replay.load`: substitute
wrapper references for serials; the `default` branch reports the
unrecognized kind (`console.assert`, non-fatal) and produces the
`bad-command` placeholder, and the map continues with the next command. -/
def Replay.resolveCommand (replay : Registry) :
    TraceQueueCommand → ReplayQueueCommand × List LogEntry
  | .queueSubmit queueSerial commandBufferSerials =>
    (ReplayQueueCommand.queueSubmit (replay.queues queueSerial)
      (commandBufferSerials.map replay.commandBuffers), [])
  | .queueWriteBuffer queueSerial bufferSerial bufferOffset data =>
    (ReplayQueueCommand.queueWriteBuffer (replay.queues queueSerial)
      (replay.buffers bufferSerial) bufferOffset data, [])
  | .queueWriteTexture queueSerial destination data dataLayout size =>
    let textureState := replay.textures destination.textureSerial
    (ReplayQueueCommand.queueWriteTexture (replay.queues queueSerial)
      { textureState := textureState
        texture := textureState.webgpuObject
        mipLevel := destination.mipLevel
        origin := destination.origin
        aspect := destination.aspect } data dataLayout size, [])
  | .present textureSerial canvasContextSerial =>
    (ReplayQueueCommand.present (replay.textures textureSerial) canvasContextSerial, [])
  | .textureDestroy textureSerial =>
    (ReplayQueueCommand.textureDestroy (replay.textures textureSerial), [])
  | .bufferUpdateData bufferSerial updates =>
    (ReplayQueueCommand.bufferUpdateData (replay.buffers bufferSerial) updates, [])
  | .bufferUnmap bufferSerial =>
    (ReplayQueueCommand.bufferUnmap (replay.buffers bufferSerial), [])
  | .other name =>
    (ReplayQueueCommand.badCommand, [LogEntry.assertFail ("Unhandled command type " ++ name)])

/-- The whole `this.commands = trace.commands.map(...)` step of
`Replay.load`: every trace command is resolved independently; the resolved
list always has one entry per trace command. -/
def Replay.resolveCommands (replay : Registry) (commands : List TraceQueueCommand) :
    List ReplayQueueCommand × List LogEntry :=
  (commands.map fun c => (Replay.resolveCommand replay c).1,
    commands.flatMap fun c => (Replay.resolveCommand replay c).2)

/-! ## The replay driver

Side effects on the live graphics context are modelled as emitted operation
lists: `EncOp` for calls recorded into a command encoder (including calls on
a render-pass encoder obtained from it), `GpuOp` for queue/device level
calls.  The driver state (`Replay.state`, `Replay.textureStateToShow`) is the
explicit `Session` record. -/

/-- A call recorded into a command encoder or into the render-pass encoder
obtained from it, in call order. -/
inductive EncOp where
  | beginRenderPass (args : ReplayBeginRenderPassArgs)
  | endPass
  | draw (args : DrawArgs)
  | drawIndexed (args : DrawIndexedArgs)
  | setBindGroup (index : Nat) (bindGroup : GpuHandle) (dynamicOffsets : Option (List Nat))
  | setIndexBuffer (buffer : GpuHandle) (indexFormat : String) (offset : Nat) (size : Nat)
  | setPipeline (pipeline : GpuHandle)
  | setVertexBuffer (slot : Nat) (buffer : GpuHandle) (offset : Nat) (size : Nat)
  | setViewport (args : ViewportArgs)
  | pushDebugGroup (groupLabel : String)
  | popDebugGroup
  | copyBufferToTexture (source : ReplayImageCopyBufferOperand)
      (destination : ReplayImageCopyTextureOperand) (copySize : Extent3D)
  | copyTextureToTexture (source : ReplayImageCopyTextureOperand)
      (destination : ReplayImageCopyTextureOperand) (copySize : Extent3D)
  deriving DecidableEq, Repr

/-- A queue- or device-level call on the live graphics context. -/
inductive GpuOp where
  | submit (queue : GpuHandle) (commands : List EncOp)
  | writeBuffer (queue : GpuHandle) (buffer : GpuHandle) (bufferOffset : Nat) (data : List Nat)
  | writeTexture (queue : GpuHandle) (destination : ReplayWriteTextureDestination)
      (data : List Nat) (dataLayout : DataLayout) (size : Extent3D)
  | writeTextureSub (queue : GpuHandle) (texture : GpuHandle) (mipLevel : Nat)
      (data : List Nat) (bytesPerRow : Nat) (rowsPerImage : Nat) (size : Extent3D)
  | createBuffer (device : GpuHandle) (usage : Nat) (size : Nat) (mappedAtCreation : Bool)
  | createTexture (device : GpuHandle) (format : String) (usage : Nat) (size : Extent3D)
      (dimension : Option String) (mipLevelCount : Nat) (sampleCount : Nat)
      (viewFormats : List String)
  | destroyTexture (texture : GpuHandle)
  deriving DecidableEq, Repr

/-- The bound-bind-group entry of the render-pass state snapshot. -/
structure BoundBindGroup where
  group : ReplayBindGroupRef
  dynamicOffsets : Option (List Nat)
  deriving DecidableEq, Repr

/-- The bound-vertex-buffer entry of the render-pass state snapshot. -/
structure BoundVertexBuffer where
  buffer : ReplayBufferRef
  offset : Nat
  size : Nat
  deriving DecidableEq, Repr

/-- The bound-index-buffer entry of the render-pass state snapshot
(initially `buffer: null, offset: 0, size: 0`). -/
structure BoundIndexBuffer where
  buffer : Option ReplayBufferRef
  offset : Nat
  size : Nat
  deriving DecidableEq, Repr

/-- One color-attachment entry of the snapshot
(`view: a.viewState, resolveTarget: a.resolveTargetState`). -/
structure SnapshotAttachment where
  view : ReplayTextureViewRef
  resolveTarget : Option ReplayTextureViewRef
  deriving DecidableEq, Repr

/-- The observable render-pass state snapshot built by
`ReplayRenderPass.encodeUpTo`.  `bindGroups` and `vertexBuffers` are sparse
JS arrays indexed by bind index / slot; a hole is `none`. -/
structure PassSnapshot where
  viewport : ViewportArgs
  colorAttachments : List SnapshotAttachment
  depthStencilAttachment : Option ReplayTextureViewRef
  pipeline : Option ReplayPipelineRef
  bindGroups : List (Option BoundBindGroup)
  vertexBuffers : List (Option BoundVertexBuffer)
  indexBuffer : BoundIndexBuffer
  deriving DecidableEq, Repr

/-- Assignment `a[i] = v` on a sparse JS array: extend with holes up to
index `i` if needed, then set index `i`. -/
def jsSetAt {α : Type} (l : List (Option α)) (i : Nat) (v : α) : List (Option α) :=
  (l ++ List.replicate (i + 1 - l.length) none).set i (some v)

/-- The session-wide `Replay.state` value (`any` in the source): initially
`undefined`, reset to `{}` by `replayTo`, set to `{ currentTexture }` by
`present`, to the begin arguments at the begin-marker path, or to the pass
snapshot when a pass is force-ended. -/
inductive StateVal where
  | undef
  | emptyObj
  | currentTexture (texture : ReplayTextureRef)
  | beginArgs (args : ReplayBeginRenderPassArgs)
  | passState (s : PassSnapshot)
  deriving DecidableEq, Repr

/-- The mutable session fields of the `Replay` object that the driver
writes: `state` and `textureStateToShow`. -/
structure Session where
  state : StateVal
  textureStateToShow : Option ReplayTextureRef
  deriving DecidableEq, Repr

/-- The `for (let i = 1; i <= commandIndex; i++)` loop body of
`ReplayRenderPass.encodeUpTo`, over the explicit list of loop indices:
fetch `this.commands[i]` (reading `name` of `undefined` throws if the index
is past the end), emit the encoder call, update the snapshot.  The
`default` branch (`beginRenderPass` mid-list, or an unrecognized retained
command) is a `console.assert` only: nothing is encoded and the loop
continues. -/
def ReplayRenderPass.encodeLoop (cmds : List RPCommand) :
    List Nat → PassSnapshot → Bool → List EncOp × PassSnapshot × Bool × Option JsErr
  | [], st, ended => ([], st, ended, none)
  | i :: is, st, ended =>
    match cmds[i]? with
    | none => ([], st, ended,
        some (JsErr.typeError "Cannot read properties of undefined (reading name)"))
    | some c =>
      match c with
      | .draw args =>
        let t := ReplayRenderPass.encodeLoop cmds is st ended
        (EncOp.draw args :: t.1, t.2)
      | .drawIndexed args =>
        let t := ReplayRenderPass.encodeLoop cmds is st ended
        (EncOp.drawIndexed args :: t.1, t.2)
      | .endPass =>
        let t := ReplayRenderPass.encodeLoop cmds is st true
        (EncOp.endPass :: t.1, t.2)
      | .popDebugGroup =>
        let t := ReplayRenderPass.encodeLoop cmds is st ended
        (EncOp.popDebugGroup :: t.1, t.2)
      | .pushDebugGroup groupLabel =>
        let t := ReplayRenderPass.encodeLoop cmds is st ended
        (EncOp.pushDebugGroup groupLabel :: t.1, t.2)
      | .setBindGroup index bindGroup dynamicOffsets =>
        let entry : BoundBindGroup := { group := bindGroup, dynamicOffsets := dynamicOffsets }
        let st' := { st with bindGroups := jsSetAt st.bindGroups index entry }
        let t := ReplayRenderPass.encodeLoop cmds is st' ended
        (EncOp.setBindGroup index bindGroup.webgpuObject dynamicOffsets :: t.1, t.2)
      | .setIndexBuffer buffer indexFormat offset size =>
        let st' := { st with indexBuffer := { buffer := some buffer, offset := offset, size := size } }
        let t := ReplayRenderPass.encodeLoop cmds is st' ended
        (EncOp.setIndexBuffer buffer.webgpuObject indexFormat offset size :: t.1, t.2)
      | .setPipeline pipeline =>
        let st' := { st with pipeline := some pipeline }
        let t := ReplayRenderPass.encodeLoop cmds is st' ended
        (EncOp.setPipeline pipeline.webgpuObject :: t.1, t.2)
      | .setVertexBuffer slot buffer offset size =>
        let entry : BoundVertexBuffer := { buffer := buffer, offset := offset, size := size }
        let st' := { st with vertexBuffers := jsSetAt st.vertexBuffers slot entry }
        let t := ReplayRenderPass.encodeLoop cmds is st' ended
        (EncOp.setVertexBuffer slot buffer.webgpuObject offset size :: t.1, t.2)
      | .setViewport args =>
        let st' := { st with viewport := args }
        let t := ReplayRenderPass.encodeLoop cmds is st' ended
        (EncOp.setViewport args :: t.1, t.2)
      | .beginRenderPass _ => ReplayRenderPass.encodeLoop cmds is st ended
      | .other _ => ReplayRenderPass.encodeLoop cmds is st ended

/-- `ReplayRenderPass.encodeUpTo(path, encoder)`.  Returns the encoder calls
emitted, the updated session and a possible thrown error.  The structural
`console.assert`s and the discard-store `console.warn`s are log-only; the
first real reads are `this.commands[0].args` and
`renderPassDesc.colorAttachments[0].viewState`, which throw when the head is
not a begin-marker or there is no first color attachment. -/
def ReplayRenderPass.encodeUpTo (rp : ReplayRenderPassModel) (path : List Nat) (s : Session) :
    List EncOp × Session × Option JsErr :=
  let commandIndex := path.head?
  match rp.commands.head? with
  | some (RPCommand.beginRenderPass renderPassDesc) =>
    match renderPassDesc.colorAttachments.head? with
    | none =>
      ([], s, some (JsErr.typeError "Cannot read properties of undefined (reading viewState)"))
    | some a =>
      -- const firstAttachment = renderPassDesc.colorAttachments[0].viewState;
      -- console.assert(firstAttachment.baseMipLevel === 0): log-only
      let firstAttachment := a.viewState
      if commandIndex = some 0 then
        -- `this.replay.state = this.commands[0].args; return;` — nothing encoded
        ([], { s with state := StateVal.beginArgs renderPassDesc }, none)
      else
        let state0 : PassSnapshot :=
          { viewport :=
              { x := 0, y := 0
                width := Int.ofNat firstAttachment.texture.size.width
                height := Int.ofNat firstAttachment.texture.size.height
                minDepth := 0, maxDepth := 1 }
            colorAttachments := renderPassDesc.colorAttachments.map fun a =>
              { view := a.viewState, resolveTarget := a.resolveTargetState }
            depthStencilAttachment := renderPassDesc.depthStencilAttachment.map fun ds => ds.viewState
            pipeline := none
            bindGroups := []
            vertexBuffers := []
            indexBuffer := { buffer := none, offset := 0, size := 0 } }
        -- const renderPass = encoder.beginRenderPass(renderPassDesc);
        -- `if (a.resolveTarget) textureStateToShow = a.resolveTargetState.texture
        --  else textureStateToShow = a.viewState.texture`
        match a.resolveTarget, a.resolveTargetState with
        | some _, none =>
          (EncOp.beginRenderPass renderPassDesc :: [], s,
            some (JsErr.typeError "Cannot read properties of undefined (reading texture)"))
        | some _, some rts =>
          let s1 := { s with textureStateToShow := some rts.texture }
          let iters := match commandIndex with | none => [] | some n => List.range' 1 n
          let t := ReplayRenderPass.encodeLoop rp.commands iters state0 false
          match t.2.2.2 with
          | some e => (EncOp.beginRenderPass renderPassDesc :: t.1, s1, some e)
          | none =>
            if t.2.2.1 then (EncOp.beginRenderPass renderPassDesc :: t.1, s1, none)
            else (EncOp.beginRenderPass renderPassDesc :: t.1 ++ [EncOp.endPass],
              { s1 with state := StateVal.passState t.2.1 }, none)
        | none, _ =>
          let s1 := { s with textureStateToShow := some a.viewState.texture }
          let iters := match commandIndex with | none => [] | some n => List.range' 1 n
          let t := ReplayRenderPass.encodeLoop rp.commands iters state0 false
          match t.2.2.2 with
          | some e => (EncOp.beginRenderPass renderPassDesc :: t.1, s1, some e)
          | none =>
            if t.2.2.1 then (EncOp.beginRenderPass renderPassDesc :: t.1, s1, none)
            else (EncOp.beginRenderPass renderPassDesc :: t.1 ++ [EncOp.endPass],
              { s1 with state := StateVal.passState t.2.1 }, none)
  | _ => ([], s, some (JsErr.typeError "Cannot read properties of undefined (reading colorAttachments)"))

/-- `ReplayRenderPass.encodeIn(encoder)`:
`this.encodeUpTo([this.commands.length - 1], encoder)`. -/
def ReplayRenderPass.encodeIn (rp : ReplayRenderPassModel) (s : Session) :
    List EncOp × Session × Option JsErr :=
  ReplayRenderPass.encodeUpTo rp [rp.commands.length - 1] s

/-- The `for (let i = 0; i <= commandIndex; i++)` loop of
`ReplayCommandBuffer.encodeUpTo`, over the explicit list of loop indices.
A `renderPass` that is the target (`i === commandIndex && !full`) recurses
with the remaining path; any other occurrence is fully encoded.  The
`default` branch is a `console.assert` only. -/
def ReplayCommandBuffer.encodeLoop (cmds : List CBCommand) (commandIndex : Option Nat)
    (rest : List Nat) (full : Bool) :
    List Nat → Session → List EncOp × Session × Option JsErr
  | [], s => ([], s, none)
  | i :: is, s =>
    match cmds[i]? with
    | none => ([], s, some (JsErr.typeError "Cannot read properties of undefined (reading name)"))
    | some c =>
      let step : List EncOp × Session × Option JsErr :=
        match c with
        | .renderPass rp =>
          if commandIndex = some i ∧ full = false then ReplayRenderPass.encodeUpTo rp rest s
          else ReplayRenderPass.encodeIn rp s
        | .copyBufferToTexture source destination copySize =>
          ([EncOp.copyBufferToTexture source destination copySize], s, none)
        | .copyTextureToTexture source destination copySize =>
          ([EncOp.copyTextureToTexture source destination copySize], s, none)
        | .popDebugGroup => ([EncOp.popDebugGroup], s, none)
        | .pushDebugGroup groupLabel => ([EncOp.pushDebugGroup groupLabel], s, none)
        | .other _ => ([], s, none)
      match step.2.2 with
      | some e => (step.1, step.2.1, some e)
      | none =>
        let t := ReplayCommandBuffer.encodeLoop cmds commandIndex rest full is step.2.1
        (step.1 ++ t.1, t.2.1, t.2.2)

/-- `ReplayCommandBuffer.encodeUpTo(path, encoder, full = false)`. -/
def ReplayCommandBuffer.encodeUpTo (cb : ReplayCommandBufferModel) (path : List Nat)
    (s : Session) (full : Bool) : List EncOp × Session × Option JsErr :=
  let commandIndex := path.head?
  let iters := match commandIndex with | none => [] | some n => List.range (n + 1)
  ReplayCommandBuffer.encodeLoop cb.commands commandIndex path.tail full iters s

/-- `ReplayCommandBuffer.encodeIn(encoder)`:
`this.encodeUpTo([this.commands.length - 1], encoder, true)`. -/
def ReplayCommandBuffer.encodeIn (cb : ReplayCommandBufferModel) (s : Session) :
    List EncOp × Session × Option JsErr :=
  ReplayCommandBuffer.encodeUpTo cb [cb.commands.length - 1] s true

/-- The `for (const commandBuffer of commandBuffers)` loop of
`ReplayQueue.executeSubmit`: encode every buffer, in order, into the shared
encoder. -/
def ReplayQueue.executeSubmitLoop :
    List ReplayCommandBufferModel → Session → List EncOp × Session × Option JsErr
  | [], s => ([], s, none)
  | cb :: rest, s =>
    let r := ReplayCommandBuffer.encodeIn cb s
    match r.2.2 with
    | some e => (r.1, r.2.1, some e)
    | none =>
      let t := ReplayQueue.executeSubmitLoop rest r.2.1
      (r.1 ++ t.1, t.2.1, t.2.2)

/-- `ReplayQueue.executeSubmit(commandBuffers)`: create one fresh encoder,
encode every command buffer into it, submit the finished encoder.  A thrown
error propagates before `submit`, so nothing reaches the queue. -/
def ReplayQueue.executeSubmit (q : ReplayQueueRef) (commandBuffers : List ReplayCommandBufferModel)
    (s : Session) : List GpuOp × Session × Option JsErr :=
  let r := ReplayQueue.executeSubmitLoop commandBuffers s
  match r.2.2 with
  | some e => ([], r.2.1, some e)
  | none => ([GpuOp.submit q.webgpuObject r.1], r.2.1, none)

/-- The `for (let i = 0; i < commandBufferIndex - 1; i++)` prefix loop of
`ReplayQueue.replaySubmitTo`, over the explicit list of loop indices
(`commandBuffers[i].encodeIn(encoder)`; an out-of-range index reads
`encodeIn` of `undefined` and throws). -/
def ReplayQueue.encodePrefix (commandBuffers : List ReplayCommandBufferModel) :
    List Nat → Session → List EncOp × Session × Option JsErr
  | [], s => ([], s, none)
  | i :: is, s =>
    match commandBuffers[i]? with
    | none => ([], s, some (JsErr.typeError "Cannot read properties of undefined (reading encodeIn)"))
    | some cb =>
      let r := ReplayCommandBuffer.encodeIn cb s
      match r.2.2 with
      | some e => (r.1, r.2.1, some e)
      | none =>
        let t := ReplayQueue.encodePrefix commandBuffers is r.2.1
        (r.1 ++ t.1, t.2.1, t.2.2)

/-- `ReplayQueue.replaySubmitTo(path, commandBuffers)`.  NOTE the loop bound
of the source, `i < commandBufferIndex - 1`: for a target buffer index `j`
the fully encoded prefix is buffers `0 .. j-2` — buffer `j-1` is skipped
(JS `undefined - 1` is `NaN`, so an absent index runs the loop zero times;
for `j = 0` both JS and Nat run it zero times). -/
def ReplayQueue.replaySubmitTo (q : ReplayQueueRef) (path : List Nat)
    (commandBuffers : List ReplayCommandBufferModel) (s : Session) :
    List GpuOp × Session × Option JsErr :=
  let commandBufferIndex := path.head?
  let preCount := match commandBufferIndex with | none => 0 | some j => j - 1
  let pre := ReplayQueue.encodePrefix commandBuffers (List.range preCount) s
  match pre.2.2 with
  | some e => ([], pre.2.1, some e)
  | none =>
    match commandBufferIndex with
    | none =>
      -- `commandBuffers[undefined].encodeUpTo(...)` throws
      ([], pre.2.1, some (JsErr.typeError "Cannot read properties of undefined (reading encodeUpTo)"))
    | some j =>
      match commandBuffers[j]? with
      | none =>
        ([], pre.2.1, some (JsErr.typeError "Cannot read properties of undefined (reading encodeUpTo)"))
      | some cb =>
        let r := ReplayCommandBuffer.encodeUpTo cb path.tail pre.2.1 false
        match r.2.2 with
        | some e => ([], r.2.1, some e)
        | none => ([GpuOp.submit q.webgpuObject (pre.1 ++ r.1)], r.2.1, none)

/-- The loaded `Replay` session as the driver sees it: the resolved
top-level command list and the raw data blobs. -/
structure Replay where
  commands : List ReplayQueueCommand
  data : Nat → List Nat

/-- `Replay.getData`: fetch the raw bytes for a data reference (the byte
length `console.assert` is log-only). -/
def Replay.getData (r : Replay) (serializedData : TraceDataRef) : List Nat :=
  r.data serializedData.serial

/-- `Replay.execute(command)`: apply one resolved top-level command to the
live context.  `textureDestroy` is intentionally a no-op on the live handle;
`bufferUpdateData`, `bufferUnmap` and `bad-command` hit the `default`
`console.assert` and do nothing. -/
def Replay.execute (r : Replay) (command : ReplayQueueCommand) (s : Session) :
    List GpuOp × Session × Option JsErr :=
  match command with
  | .queueSubmit queue commandBuffers => ReplayQueue.executeSubmit queue commandBuffers s
  | .queueWriteBuffer queue buffer bufferOffset data =>
    ([GpuOp.writeBuffer queue.webgpuObject buffer.webgpuObject bufferOffset (r.getData data)],
      s, none)
  | .queueWriteTexture queue destination data dataLayout size =>
    ([GpuOp.writeTexture queue.webgpuObject destination (r.getData data)
        { dataLayout with offset := 0 } size], s, none)
  | .present texture _ => ([], { s with state := StateVal.currentTexture texture }, none)
  | .textureDestroy _ => ([], s, none)
  | .bufferUpdateData _ _ => ([], s, none)
  | .bufferUnmap _ => ([], s, none)
  | .badCommand => ([], s, none)

/-- The `for (let i = 0; i <= replayLevel; i++)` loop of `Replay.replayTo`,
over the explicit list of loop indices: reading `this.commands[i]` past the
end of the array gives `undefined`, and `c.name` then throws. -/
def Replay.replayToLoop (r : Replay) (replayLevel : Nat) (tailPath : List Nat) :
    List Nat → Session → List GpuOp × Session × Option JsErr
  | [], s => ([], s, none)
  | i :: is, s =>
    match r.commands[i]? with
    | none => ([], s, some (JsErr.typeError "Cannot read properties of undefined (reading name)"))
    | some c =>
      let step : List GpuOp × Session × Option JsErr :=
        match c with
        | ReplayQueueCommand.queueSubmit queue commandBuffers =>
          if i = replayLevel then ReplayQueue.replaySubmitTo queue tailPath commandBuffers s
          else ReplayQueue.executeSubmit queue commandBuffers s
        | _ => Replay.execute r c s
      match step.2.2 with
      | some e => (step.1, step.2.1, some e)
      | none =>
        let t := Replay.replayToLoop r replayLevel tailPath is step.2.1
        (step.1 ++ t.1, t.2.1, t.2.2)

/-- `Replay.replayTo(path)`: reset `state` to `{}`, shift the top-level
index, execute every command up to and including it (recursing into the
target when it is a `queueSubmit`). -/
def Replay.replayTo (r : Replay) (path : List Nat) (s : Session) :
    List GpuOp × Session × Option JsErr :=
  let s0 := { s with state := StateVal.emptyObj }
  match path.head? with
  | none => ([], s0, none)
  | some replayLevel =>
    Replay.replayToLoop r replayLevel path.tail (List.range (replayLevel + 1)) s0

/-- `Replay.endPath()`: `[this.commands.length]` — one past the last
top-level command. -/
def Replay.endPath (r : Replay) : List Nat :=
  [r.commands.length]

/-- Claim-side definition (spec wording for C2): *full execution* is calling
`Replay.execute` on every top-level command, in order. -/
def Replay.executeAll (r : Replay) : List ReplayQueueCommand → Session → List GpuOp × Session × Option JsErr
  | [], s => ([], s, none)
  | c :: rest, s =>
    let step := Replay.execute r c s
    match step.2.2 with
    | some e => (step.1, step.2.1, some e)
    | none =>
      let t := Replay.executeAll r rest step.2.1
      (step.1 ++ t.1, t.2.1, t.2.2)

/-! ## The command enumerator (`iterateCommands`) -/

/-- One emitted (path, command) pair of the command enumerator.  The three
levels of the tree yield commands of three different types; `YieldCmd` tags
them. -/
inductive YieldCmd where
  | q (c : ReplayQueueCommand)
  | cb (c : CBCommand)
  | rp (c : RPCommand)
  deriving DecidableEq, Repr

/-- (path, command) as emitted by the enumerator. -/
abbrev YieldEntry := List Nat × YieldCmd

/-- The command names recognized by the `switch` of
`ReplayRenderPass.iterateCommands` (each yields; the `default` is a
`console.assert` without a yield). -/
def rpIterateRecognizedNames : List String :=
  ["beginRenderPass", "copyBufferToTexture", "copyTextureToTexture", "draw", "drawIndexed",
   "endPass", "popDebugGroup", "pushDebugGroup", "setBindGroup", "setIndexBuffer",
   "setPipeline", "setVertexBuffer", "setViewport"]

/-- `ReplayRenderPass.iterateCommands([i, j, k])` from child index `l`:
every recognized child yields `{ path: [i, j, k, l], command: c }`; a
retained unrecognized command yields only if its *name* is in the recognized
list (dispatch is by name). -/
def ReplayRenderPass.iterateCommandsFrom (i j k : Nat) :
    Nat → List RPCommand → List YieldEntry
  | _, [] => []
  | l, c :: rest =>
    (match c with
     | RPCommand.other name =>
       if name ∈ rpIterateRecognizedNames then [([i, j, k, l], YieldCmd.rp c)] else []
     | _ => [([i, j, k, l], YieldCmd.rp c)]) ++
    ReplayRenderPass.iterateCommandsFrom i j k (l + 1) rest

/-- `ReplayRenderPass.iterateCommands([i, j, k])`. -/
def ReplayRenderPass.iterateCommands (i j k : Nat) (rp : ReplayRenderPassModel) :
    List YieldEntry :=
  ReplayRenderPass.iterateCommandsFrom i j k 0 rp.commands

/-- The command names the `switch` of
`ReplayCommandBuffer.iterateCommands` yields directly (`renderPass`
recurses; the `default` is a `console.assert` without a yield). -/
def cbIterateRecognizedNames : List String :=
  ["copyBufferToTexture", "copyTextureToTexture", "popDebugGroup", "pushDebugGroup"]

/-- `ReplayCommandBuffer.iterateCommands([i, j])` from command index `k`. -/
def ReplayCommandBuffer.iterateCommandsFrom (i j : Nat) :
    Nat → List CBCommand → List YieldEntry
  | _, [] => []
  | k, c :: rest =>
    (match c with
     | CBCommand.renderPass rp => ReplayRenderPass.iterateCommands i j k rp
     | CBCommand.other name =>
       if name ∈ cbIterateRecognizedNames then [([i, j, k], YieldCmd.cb c)] else []
     | _ => [([i, j, k], YieldCmd.cb c)]) ++
    ReplayCommandBuffer.iterateCommandsFrom i j (k + 1) rest

/-- `ReplayCommandBuffer.iterateCommands([i, j])`. -/
def ReplayCommandBuffer.iterateCommands (i j : Nat) (cb : ReplayCommandBufferModel) :
    List YieldEntry :=
  ReplayCommandBuffer.iterateCommandsFrom i j 0 cb.commands

/-- The `for (let j = 0; ...)` loop inside the `queueSubmit` case of
`Replay.iterateCommands`. -/
def Replay.submitIterateFrom (i : Nat) : Nat → List ReplayCommandBufferModel → List YieldEntry
  | _, [] => []
  | j, cb :: rest =>
    ReplayCommandBuffer.iterateCommands i j cb ++ Replay.submitIterateFrom i (j + 1) rest

/-- `Replay.iterateCommands()` from top-level index `i`: the six recognized
leaf kinds yield `{ path: [i], command: c }`; `queueSubmit` recurses into its
command buffers; the `default` (`bad-command`) is a `console.assert` without
a yield. -/
def Replay.iterateCommandsFrom : Nat → List ReplayQueueCommand → List YieldEntry
  | _, [] => []
  | i, c :: rest =>
    (match c with
     | ReplayQueueCommand.queueSubmit _ commandBuffers => Replay.submitIterateFrom i 0 commandBuffers
     | ReplayQueueCommand.badCommand => []
     | _ => [([i], YieldCmd.q c)]) ++
    Replay.iterateCommandsFrom (i + 1) rest

/-- `Replay.iterateCommands()`.  A pure function of the resolved tree: the
emitted sequence is a finite list and re-iterating restarts it from the
beginning unchanged. -/
def Replay.iterateCommands (r : Replay) : List YieldEntry :=
  Replay.iterateCommandsFrom 0 r.commands

/-! ### Claim-side enumeration (C7 wording)

The spec describes the enumerator output as: one (path, command) pair per
leaf (non-container) command, in document order; a top-level non-submit
command yields its own single-element path `[i]`; a `queueSubmit` recurses
into each command buffer with the two-element prefix `[i, j]`; a render-pass
pseudo-command recurses into its children with the three-element prefix
`[i, j, k]`.  These functions are that description, written directly. -/

/-- Claim-side enumeration of render-pass children. -/
def specRPEnumFrom (i j k : Nat) : Nat → List RPCommand → List YieldEntry
  | _, [] => []
  | l, c :: rest => ([i, j, k, l], YieldCmd.rp c) :: specRPEnumFrom i j k (l + 1) rest

/-- Claim-side enumeration of command-buffer commands. -/
def specCBEnumFrom (i j : Nat) : Nat → List CBCommand → List YieldEntry
  | _, [] => []
  | k, c :: rest =>
    (match c with
     | CBCommand.renderPass rp => specRPEnumFrom i j k 0 rp.commands
     | _ => [([i, j, k], YieldCmd.cb c)]) ++ specCBEnumFrom i j (k + 1) rest

/-- Claim-side enumeration of a submit command. -/
def specSubmitEnumFrom (i : Nat) : Nat → List ReplayCommandBufferModel → List YieldEntry
  | _, [] => []
  | j, cb :: rest => specCBEnumFrom i j 0 cb.commands ++ specSubmitEnumFrom i (j + 1) rest

/-- Claim-side enumeration of the whole tree. -/
def specEnumFrom : Nat → List ReplayQueueCommand → List YieldEntry
  | _, [] => []
  | i, c :: rest =>
    (match c with
     | ReplayQueueCommand.queueSubmit _ commandBuffers => specSubmitEnumFrom i 0 commandBuffers
     | _ => [([i], YieldCmd.q c)]) ++ specEnumFrom (i + 1) rest

/-- Claim-side enumeration, entry point. -/
def specEnumerate (r : Replay) : List YieldEntry :=
  specEnumFrom 0 r.commands

/-- A render-pass command of a recognized kind (not a retained
unrecognized command). -/
def RPCommand.recognized : RPCommand → Bool
  | .other _ => false
  | _ => true

/-- A command-buffer command of a recognized kind, recursively (a render
pass must contain only recognized children). -/
def CBCommand.recognized : CBCommand → Bool
  | .renderPass rp => rp.commands.all RPCommand.recognized
  | .other _ => false
  | _ => true

/-- A top-level command of a recognized kind, recursively. -/
def ReplayQueueCommand.recognized : ReplayQueueCommand → Bool
  | .queueSubmit _ commandBuffers => commandBuffers.all fun cb => cb.commands.all CBCommand.recognized
  | .badCommand => false
  | _ => true

/-! ## Resource reconstruction (buffers, textures, layouts, pipelines) -/

/-- `GPUBufferUsage.COPY_SRC` (WebGPU constant). -/
def GPUBufferUsage.COPY_SRC : Nat := 4
/-- `GPUBufferUsage.COPY_DST` (WebGPU constant). -/
def GPUBufferUsage.COPY_DST : Nat := 8
/-- `GPUTextureUsage.COPY_SRC` (WebGPU constant). -/
def GPUTextureUsage.COPY_SRC : Nat := 1
/-- `GPUTextureUsage.COPY_DST` (WebGPU constant). -/
def GPUTextureUsage.COPY_DST : Nat := 2
/-- `GPUTextureUsage.TEXTURE_BINDING` (WebGPU constant). -/
def GPUTextureUsage.TEXTURE_BINDING : Nat := 4

/-- The `ReplayBuffer` wrapper: note `this.usage` stores the *recorded*
usage while the live object is created with the augmented usage. -/
structure ReplayBufferModel where
  deviceSerial : Nat
  usage : Nat
  size : Nat
  webgpuObject : GpuHandle
  deriving DecidableEq, Repr

/-- The `ReplayBuffer` constructor: create the live buffer with
`desc.usage | COPY_SRC | COPY_DST`, then write the recorded initial
contents, if any (the state `console.assert` is log-only). -/
def ReplayBuffer.construct (data : Nat → List Nat) (desc : TraceBuffer) :
    ReplayBufferModel × List GpuOp :=
  let webgpuObject := GpuHandle.createdBuffer desc
  let createOp := GpuOp.createBuffer (GpuHandle.device desc.deviceSerial)
    (desc.usage ||| GPUBufferUsage.COPY_SRC ||| GPUBufferUsage.COPY_DST) desc.size
    (desc.state == "mapped-at-creation")
  let model : ReplayBufferModel :=
    { deviceSerial := desc.deviceSerial, usage := desc.usage, size := desc.size,
      webgpuObject := webgpuObject }
  match desc.initialData with
  | some ref =>
    (model, [createOp,
      GpuOp.writeBuffer (GpuHandle.queueOf desc.deviceSerial) webgpuObject 0 (data ref.serial)])
  | none => (model, [createOp])

/-- The `ReplayTexture` wrapper (an absent `dimension` defaults to 2d). -/
structure ReplayTextureModelFull where
  deviceSerial : Nat
  size : Extent3D
  format : String
  sampleCount : Nat
  mipLevelCount : Nat
  dimension : String
  swapChainId : Option String
  webgpuObject : GpuHandle
  deriving DecidableEq, Repr

/-- `ReplayTexture.loadInitialData`: refuse (with a `console.warn`, writing
nothing) multisampled or non-2d textures; otherwise one `writeTexture` per
recorded subresource, at the mip-scaled size. -/
def ReplayTexture.loadInitialData (data : Nat → List Nat) (deviceSerial : Nat)
    (tex : ReplayTextureModelFull) (initialData : List TraceTextureInitialData) : List GpuOp :=
  if tex.sampleCount ≠ 1 then []
  else if tex.dimension ≠ "2d" then []
  else initialData.map fun subResource =>
    let mip := subResource.mipLevel
    let width := max 1 (tex.size.width >>> mip)
    let height := max 1 (tex.size.height >>> mip)
    GpuOp.writeTextureSub (GpuHandle.queueOf deviceSerial) tex.webgpuObject mip
      (data subResource.data.serial) subResource.bytesPerRow height
      { width := width, height := height, depthOrArrayLayers := tex.size.depthOrArrayLayers }

/-- The `ReplayTexture` constructor: create the live texture with
`desc.usage | COPY_SRC | COPY_DST | TEXTURE_BINDING`; then — this is the
`if / else if` of lines 1338-1343 — *either* load the recorded initial data
(when present) *or* destroy the freshly created texture (when the recorded
state is `destroyed` and there is no initial data). -/
def ReplayTexture.construct (data : Nat → List Nat) (desc : TraceTexture) :
    ReplayTextureModelFull × List GpuOp :=
  let model : ReplayTextureModelFull :=
    { deviceSerial := desc.deviceSerial, size := desc.size, format := desc.format,
      sampleCount := desc.sampleCount, mipLevelCount := desc.mipLevelCount,
      dimension := desc.dimension.getD "2d", swapChainId := desc.swapChainId,
      webgpuObject := GpuHandle.createdTexture desc }
  let createOp := GpuOp.createTexture (GpuHandle.device desc.deviceSerial) desc.format
    (desc.usage ||| GPUTextureUsage.COPY_SRC ||| GPUTextureUsage.COPY_DST |||
      GPUTextureUsage.TEXTURE_BINDING)
    desc.size desc.dimension desc.mipLevelCount desc.sampleCount desc.viewFormats
  match desc.initialData with
  | some initialData =>
    (model, createOp :: ReplayTexture.loadInitialData data desc.deviceSerial model initialData)
  | none =>
    if desc.state == "destroyed" then (model, [createOp, GpuOp.destroyTexture model.webgpuObject])
    else (model, [createOp])

/-- The `ReplayBindGroupLayout` wrapper: `desc` is the `structuredClone` the
constructor stores; `webgpuObject` stays `none` for an implicit layout until
`initializeFromImplicitDesc` runs. -/
structure ReplayBindGroupLayoutModel where
  deviceSerial : Nat
  desc : TraceBindGroupLayout
  implicit : Bool
  webgpuObject : Option GpuHandle
  deriving DecidableEq, Repr

/-- The `ReplayBindGroupLayout` constructor: implicit iff
`desc.entries === undefined`; an implicit layout returns early *without* a
live handle, an explicit one creates its handle immediately. -/
def ReplayBindGroupLayout.construct (desc : TraceBindGroupLayout) : ReplayBindGroupLayoutModel :=
  let implicit := desc.entries.isNone
  { deviceSerial := desc.deviceSerial
    desc := desc
    implicit := implicit
    webgpuObject := if implicit then none else some (GpuHandle.createdBindGroupLayout desc) }

/-- The `ReplayShaderModule` wrapper.  `key` stands for the wrapper identity
(`replayObjectKey`); the load model keys it by the trace serial. -/
structure ReplayShaderModuleModel where
  key : Nat
  deviceSerial : Nat
  code : String
  webgpuObject : GpuHandle
  deriving DecidableEq, Repr

/-- The `ReplayShaderModule` constructor
(`createShaderModule({ code: desc.code })`). -/
def ReplayShaderModule.construct (serial : Nat) (desc : TraceShaderModule) :
    ReplayShaderModuleModel :=
  { key := serial, deviceSerial := desc.deviceSerial, code := desc.code,
    webgpuObject := GpuHandle.createdShaderModule desc.deviceSerial desc.code }

/-- The `ReplayPipelineLayout` wrapper, identified by its serial (its
construction is independent of every claim). -/
structure ReplayPipelineLayoutModel where
  key : Nat
  webgpuObject : GpuHandle
  deriving DecidableEq, Repr

/-- The `ReplayRenderPipeline` wrapper.  `desc` aliases the trace
descriptor (see `recreate`). -/
structure ReplayRenderPipelineModel where
  deviceSerial : Nat
  desc : TraceRenderPipeline
  webgpuObject : GpuHandle
  deriving DecidableEq, Repr

/-- `ReplayRenderPipeline.recreate(desc)`.  `this.desc` *aliases* the trace
descriptor and the function assigns into it — `this.desc.vertex.module =
vsModule`, `this.desc.fragment.module = fsModule`, and (for a non-`auto`
layout) `desc.layout = layout` — so the trace descriptor is mutated; the
mutated descriptor is returned as the second component.  (`desc.layoutSerial!`
is modelled by `Option.getD 0`; a captured non-auto pipeline always carries
the serial.) -/
def ReplayRenderPipeline.recreate (shaderModules : Nat → ReplayShaderModuleModel)
    (pipelineLayouts : Nat → ReplayPipelineLayoutModel) (desc : TraceRenderPipeline) :
    ReplayRenderPipelineModel × TraceRenderPipeline :=
  let vsModule := shaderModules desc.vertex.moduleSerial
  let desc1 := { desc with vertex := { desc.vertex with module := some vsModule.key } }
  let fr : Option String × TraceRenderPipeline :=
    match desc1.fragment with
    | some fragment =>
      let fsModule := shaderModules fragment.moduleSerial
      (some fsModule.code,
        { desc1 with fragment := some { fragment with module := some fsModule.key } })
    | none => (none, desc1)
  let lay : Option Nat × TraceRenderPipeline :=
    match fr.2.layout with
    | TraceLayoutField.auto => (none, fr.2)
    | _ =>
      let layout := pipelineLayouts (fr.2.layoutSerial.getD 0)
      (some layout.key, { fr.2 with layout := TraceLayoutField.wrapper layout.key })
  let webgpuObject := GpuHandle.createdRenderPipeline desc.deviceSerial vsModule.code fr.1 lay.1
  ({ deviceSerial := desc.deviceSerial, desc := lay.2, webgpuObject := webgpuObject }, lay.2)

/-- `ReplayBindGroupLayout.initializeFromImplicitDesc()`: fetch the live
handle from the owning render pipeline recorded in the stored descriptor, at
the recorded group index.  (A missing pipeline serial would throw in JS; the
theorems only use present serials.) -/
def ReplayBindGroupLayout.initializeFromImplicitDesc
    (renderPipelines : Nat → Option ReplayRenderPipelineModel)
    (l : ReplayBindGroupLayoutModel) : ReplayBindGroupLayoutModel :=
  { l with webgpuObject :=
      (renderPipelines l.desc.renderPipelineSerial).map fun pipeline =>
        GpuHandle.getBindGroupLayout pipeline.webgpuObject l.desc.groupIndex }

/-- The slice of the `Trace` value that the modelled load phases read
(association lists keyed by serial). -/
structure Trace where
  shaderModules : List (Nat × TraceShaderModule)
  bindGroupLayouts : List (Nat × TraceBindGroupLayout)
  renderPipelines : List (Nat × TraceRenderPipeline)
  commands : List TraceQueueCommand
  deriving DecidableEq, Repr

/-- The outcome of the modelled load phases. -/
structure LoadedReplay where
  bindGroupLayouts : List (Nat × ReplayBindGroupLayoutModel)
  renderPipelines : List (Nat × ReplayRenderPipelineModel)
  traceAfter : Trace
  deriving DecidableEq, Repr

/-- The serial → shader-module-wrapper lookup after phase 4 (a missing
serial is `undefined` in JS and would fault at the next property access; the
model returns a junk wrapper, and the theorems only use present serials). -/
def Trace.shaderModuleRegistry (trace : Trace) : Nat → ReplayShaderModuleModel :=
  fun serial =>
    match trace.shaderModules.lookup serial with
    | some desc => ReplayShaderModule.construct serial desc
    | none => ReplayShaderModule.construct serial { deviceSerial := 0, code := "" }

/-- The serial → pipeline-layout-wrapper lookup after phase 4 (wrappers
identified by serial; their construction is independent of every claim). -/
def Trace.pipelineLayoutRegistry : Nat → ReplayPipelineLayoutModel :=
  fun serial => { key := serial, webgpuObject := GpuHandle.pipelineLayoutOf serial }

/-- The body of the implicit-layout resolution loop of `Replay.load`
(lines 434-438): `if (this.bindGroupLayouts[i].implicit)
this.bindGroupLayouts[i].initializeFromImplicitDesc()`. -/
def implicitPassStep (renderPipelines : Nat → Option ReplayRenderPipelineModel)
    (l : ReplayBindGroupLayoutModel) : ReplayBindGroupLayoutModel :=
  if l.implicit then ReplayBindGroupLayout.initializeFromImplicitDesc renderPipelines l else l

/-- The load phases of `Replay.load` that the layout/pipeline claims
exercise, in source order: construct all bind-group layouts (implicit ones
left without a live handle), recreate all render pipelines (each `recreate`
mutating its trace descriptor — `traceAfter` holds the result), then run the
implicit-layout resolution pass against the now-constructed pipelines. -/
def Replay.loadPhases (trace : Trace) : LoadedReplay :=
  let bgls0 := trace.bindGroupLayouts.map fun p => (p.1, ReplayBindGroupLayout.construct p.2)
  let sms := Trace.shaderModuleRegistry trace
  let pls := Trace.pipelineLayoutRegistry
  let rpPairs := trace.renderPipelines.map fun p => (p.1, ReplayRenderPipeline.recreate sms pls p.2)
  let renderPipelines := rpPairs.map fun p => (p.1, p.2.1)
  let traceAfter := { trace with renderPipelines := rpPairs.map fun p => (p.1, p.2.2) }
  let bgls1 := bgls0.map fun p =>
    (p.1, implicitPassStep (fun s => renderPipelines.lookup s) p.2)
  { bindGroupLayouts := bgls1, renderPipelines := renderPipelines, traceAfter := traceAfter }

/-! ## Concrete fixtures shared by the witness and counterexample theorems -/

/-- A small texture wrapper reference. -/
def texRefC (serial : Nat) : ReplayTextureRef :=
  { serial := serial, size := { width := 8, height := 8, depthOrArrayLayers := 1 },
    webgpuObject := GpuHandle.textureOf serial }

/-- A small texture-view wrapper reference. -/
def texViewRefC (serial : Nat) : ReplayTextureViewRef :=
  { serial := serial, texture := texRefC serial, baseMipLevel := 0,
    webgpuObject := GpuHandle.textureViewOf serial }

/-- A concrete registry for evaluating resolution at concrete inputs (the
general theorems quantify over arbitrary registries). -/
def regC : Registry :=
  { queues := fun s => { device := GpuHandle.device s, webgpuObject := GpuHandle.queueOf s }
    buffers := fun s => { serial := s, webgpuObject := GpuHandle.bufferOf s }
    textures := texRefC
    textureViews := texViewRefC
    bindGroups := fun s => { serial := s, webgpuObject := GpuHandle.bindGroupOf s }
    renderPipelines := fun s => { serial := s, webgpuObject := GpuHandle.renderPipelineOf s }
    querySets := fun s => { serial := s, webgpuObject := GpuHandle.querySetOf s }
    commandBuffers := fun _ => { commands := [] } }

/-- Concrete trace-side begin-render-pass arguments: one color attachment on
view 3, nothing else. -/
def beginArgsC : TraceBeginRenderPassArgs :=
  { colorAttachments :=
      [{ viewSerial := 3, resolveTargetSerial := none,
         clearValue := { r := 0, g := 0, b := 0, a := 0 },
         loadOp := "clear", storeOp := "store" }]
    depthStencilAttachment := none
    timestampWrites := []
    occlusionQuerySetSerial := none
    maxDrawCount := 50000 }

/-- The resolution of `beginArgsC` under `regC`. -/
def resolvedBeginArgsC : ReplayBeginRenderPassArgs :=
  { colorAttachments :=
      [{ view := GpuHandle.textureViewOf 3, viewState := texViewRefC 3,
         resolveTarget := none, resolveTargetState := none,
         clearValue := { r := 0, g := 0, b := 0, a := 0 },
         loadOp := "clear", storeOp := "store" }]
    depthStencilAttachment := none
    timestampWrites := []
    occlusionQuerySetState := none
    occlusionQuerySet := none
    maxDrawCount := 50000 }

/-- A draw of three vertices. -/
def drawArgsC : DrawArgs :=
  { vertexCount := 3, instanceCount := 1, firstVertex := 0, firstInstance := 0 }

/-- The initial session (a fresh `Replay` has `state === undefined`). -/
def sessionC : Session :=
  { state := StateVal.undef, textureStateToShow := none }

/-- A data map for the fixtures. -/
def dataC : Nat → List Nat := fun _ => [1, 2, 3]

/-- A queue wrapper reference on device 0. -/
def queueC : ReplayQueueRef := { device := GpuHandle.device 0, webgpuObject := GpuHandle.queueOf 0 }

/-- A buffer wrapper reference. -/
def bufRefC : ReplayBufferRef := { serial := 5, webgpuObject := GpuHandle.bufferOf 5 }

/-- A one-command command buffer (`pushDebugGroup "a"`). -/
def cbC1a : ReplayCommandBufferModel := { commands := [CBCommand.pushDebugGroup "a"] }

/-- A one-command command buffer (`pushDebugGroup "b"`). -/
def cbC1b : ReplayCommandBufferModel := { commands := [CBCommand.pushDebugGroup "b"] }

/-- A resolved render pass: begin, one draw, end. -/
def renderPassC : ReplayRenderPassModel :=
  { commands := [RPCommand.beginRenderPass resolvedBeginArgsC, RPCommand.draw drawArgsC,
                 RPCommand.endPass] }

/-- A loaded replay with one `queueWriteBuffer` and one `present`. -/
def replayC2 : Replay :=
  { commands := [ReplayQueueCommand.queueWriteBuffer queueC bufRefC 0 { serial := 9, size := 3 },
                 ReplayQueueCommand.present (texRefC 2) 1]
    data := dataC }

/-! ## The claims -/

/-- C1.  The claim says `replaySubmitTo` fully encodes every command buffer
with index strictly below the target index `j`, and fully encodes the target
buffer itself when the path carries no buffer-internal component.  The code
does neither: its prefix loop runs `i < commandBufferIndex - 1`, encoding
only buffers `0 .. j-2` (buffer `j-1` is skipped), and
`encodeUpTo` with an exhausted path has `commandIndex === undefined`, so its
loop `i <= commandIndex` runs zero times and the target buffer contributes
nothing.  At the concrete input — a submit of two one-command buffers,
path `[1]` — the code submits an *empty* encoder, although fully encoding
buffers 0 and 1 produces two commands. -/
theorem c1_replaySubmitTo_submits_empty_encoder :
    ReplayQueue.replaySubmitTo queueC [1] [cbC1a, cbC1b] sessionC
        = ([GpuOp.submit (GpuHandle.queueOf 0) []], sessionC, none)
    ∧ (ReplayCommandBuffer.encodeIn cbC1a sessionC).1
        ++ (ReplayCommandBuffer.encodeIn cbC1b sessionC).1
        = [EncOp.pushDebugGroup "a", EncOp.pushDebugGroup "b"] :=
  ⟨rfl, rfl⟩

/-- C2.  The claim says `replayTo(endPath())` is behaviorally equivalent to
full execution and completes without error.  The code performs exactly the
full-execution operation sequence but then *throws*: `endPath()` is
`[commands.length]`, the loop `for (i = 0; i <= replayLevel; i++)` therefore
reaches `i = commands.length`, and `this.commands[i].name` reads `name` of
`undefined`.  At the concrete two-command replay the emitted operations
equal those of executing every command in order, and the call ends in a
`TypeError` where full execution ends without error. -/
theorem c2_replayTo_endPath_throws :
    Replay.replayTo replayC2 (Replay.endPath replayC2) sessionC
        = ([GpuOp.writeBuffer (GpuHandle.queueOf 0) (GpuHandle.bufferOf 5) 0 [1, 2, 3]],
           { state := StateVal.currentTexture (texRefC 2), textureStateToShow := none },
           some (JsErr.typeError "Cannot read properties of undefined (reading name)"))
    ∧ Replay.executeAll replayC2 replayC2.commands sessionC
        = ([GpuOp.writeBuffer (GpuHandle.queueOf 0) (GpuHandle.bufferOf 5) 0 [1, 2, 3]],
           { state := StateVal.currentTexture (texRefC 2), textureStateToShow := none },
           none) :=
  ⟨rfl, rfl⟩

/-- C3 counterexample.  The claim says an unrecognized command kind makes
resolution fail fatally, with no unrecognized command in the resolved tree
and no resolution continuing past it.  `console.assert` is non-fatal: at the
top level the unknown command becomes the `bad-command` placeholder *in the
tree* and the following `present` is still resolved; at the encoder level
the unknown command is pushed as-is and the following `pushDebugGroup` is
still resolved. -/
theorem c3_counterexample :
    (Replay.resolveCommands regC
        [TraceQueueCommand.other "frobnicate", TraceQueueCommand.present 7 1]).1
        = [ReplayQueueCommand.badCommand, ReplayQueueCommand.present (texRefC 7) 1]
    ∧ (ReplayCommandBuffer.consumeCommands regC
        [TraceEncCmd.other "dispatch", TraceEncCmd.pushDebugGroup "g"]).1
        = [CBCommand.other "dispatch", CBCommand.pushDebugGroup "g"] := by
  refine ⟨rfl, ?_⟩
  simp [ReplayCommandBuffer.consumeCommands, CBConsumed.pushReported, CBConsumed.push]

/-- C3 (amended).  An unrecognized command kind is *reported* through a
failed `console.assert` and resolution *continues*: at the queue level the
command is replaced by the `bad-command` placeholder (one resolved entry per
trace command, unknown kinds included), and at the encoder and render-pass
levels the command is pushed into the tree as-is; no level aborts. -/
theorem c3_amended (replay : Registry) (commands : List TraceQueueCommand)
    (stream : List TraceEncCmd) (i : Nat) (name : String)
    (hq : commands[i]? = some (TraceQueueCommand.other name)) :
    (Replay.resolveCommands replay commands).1.length = commands.length
    ∧ (Replay.resolveCommands replay commands).1[i]? = some ReplayQueueCommand.badCommand
    ∧ LogEntry.assertFail ("Unhandled command type " ++ name)
        ∈ (Replay.resolveCommands replay commands).2
    ∧ (ReplayCommandBuffer.consumeCommands replay (TraceEncCmd.other name :: stream)).1
        = CBCommand.other name :: (ReplayCommandBuffer.consumeCommands replay stream).1
    ∧ LogEntry.assertFail ("Unhandled command encoder command " ++ name)
        ∈ (ReplayCommandBuffer.consumeCommands replay (TraceEncCmd.other name :: stream)).2.1
    ∧ (ReplayRenderPass.consumeCommandsAux replay (TraceEncCmd.other name :: stream)).1
        = RPCommand.other name :: (ReplayRenderPass.consumeCommandsAux replay stream).1
    ∧ LogEntry.assertFail ("Unhandled render pass command type " ++ name)
        ∈ (ReplayRenderPass.consumeCommandsAux replay (TraceEncCmd.other name :: stream)).2.2 := by
  refine ⟨?_, ?_, ?_, ?_, ?_, ?_, ?_⟩
  · simp [Replay.resolveCommands]
  · simp only [Replay.resolveCommands, List.getElem?_map, hq, Option.map_some]
    rfl
  · simp only [Replay.resolveCommands, List.mem_flatMap]
    have hmem : TraceQueueCommand.other name ∈ commands := by
      have := List.getElem?_eq_some_iff.mp hq
      obtain ⟨hlt, hEq⟩ := this
      exact hEq ▸ List.getElem_mem hlt
    exact ⟨TraceQueueCommand.other name, hmem, by simp [Replay.resolveCommand]⟩
  · simp [ReplayCommandBuffer.consumeCommands, CBConsumed.pushReported]
  · simp [ReplayCommandBuffer.consumeCommands, CBConsumed.pushReported]
  · simp [ReplayRenderPass.consumeCommandsAux, RPConsumed.pushReported]
  · simp [ReplayRenderPass.consumeCommandsAux, RPConsumed.pushReported]

/-- C3 witness: the amended theorem applied at a concrete one-command trace. -/
theorem c3_amended_witness :
    (Replay.resolveCommands regC [TraceQueueCommand.other "x"]).1[0]?
      = some ReplayQueueCommand.badCommand :=
  (c3_amended regC [TraceQueueCommand.other "x"] [] 0 "x" rfl).2.1

/-- `getLast?` of a cons with a non-empty tail ignores the head. -/
theorem getLast?_cons_of_ne_nil {α : Type} (a : α) {l : List α} (h : l ≠ []) :
    (a :: l).getLast? = l.getLast? := by
  cases l with
  | nil => exact absurd rfl h
  | cons b t => simp [List.getLast?_cons_cons]

/-- If the stream contains an `endPass`, the render-pass walk produces a
non-empty command list ending in the end-marker. -/
theorem ReplayRenderPass.consumeCommandsAux_getLast_endPass (replay : Registry) :
    ∀ stream : List TraceEncCmd, TraceEncCmd.endPass ∈ stream →
      (ReplayRenderPass.consumeCommandsAux replay stream).1 ≠ []
      ∧ (ReplayRenderPass.consumeCommandsAux replay stream).1.getLast?
          = some RPCommand.endPass := by
  intro stream
  induction stream with
  | nil => intro h; simp at h
  | cons c rest ih =>
    intro h
    cases hc : c <;>
      simp only [ReplayRenderPass.consumeCommandsAux, RPConsumed.push, RPConsumed.pushReported]
    case endPass => simp
    all_goals {
      have hrest : TraceEncCmd.endPass ∈ rest := by
        subst hc
        rcases List.mem_cons.mp h with h1 | h2
        · exact absurd h1.symm (by simp)
        · exact h2
      obtain ⟨hne, hlast⟩ := ih hrest
      exact ⟨by simp, by rw [getLast?_cons_of_ne_nil _ hne]; exact hlast⟩
    }

/-- If the stream contains no `endPass`, the walk reports the missing
end-marker (and, by construction, still returns all resolved commands). -/
theorem ReplayRenderPass.consumeCommandsAux_unterminated_reported (replay : Registry) :
    ∀ stream : List TraceEncCmd, TraceEncCmd.endPass ∉ stream →
      LogEntry.assertFail "BeginRenderPass command does not have an associated EndPass."
        ∈ (ReplayRenderPass.consumeCommandsAux replay stream).2.2 := by
  intro stream
  induction stream with
  | nil => intro _; simp [ReplayRenderPass.consumeCommandsAux]
  | cons c rest ih =>
    intro h
    have hrest : TraceEncCmd.endPass ∉ rest := fun hr => h (List.mem_cons_of_mem c hr)
    have hc : c ≠ TraceEncCmd.endPass := fun he => h (he ▸ List.mem_cons_self c rest)
    cases c <;>
      simp only [ReplayRenderPass.consumeCommandsAux, RPConsumed.push, RPConsumed.pushReported]
    case endPass => exact absurd rfl hc
    all_goals first
      | exact ih hrest
      | exact List.mem_cons_of_mem _ (ih hrest)

/-- C4 counterexample.  The claim says every render-pass pseudo-command ends
in the end-marker, and that a `beginRenderPass` without a matching `endPass`
is a structural error *rather than* a produced pass without the terminating
marker.  On the stream `beginRenderPass; draw` (no `endPass`) the resolver
reports the missing end-marker through a non-fatal `console.assert` and
nevertheless pushes a render-pass pseudo-command whose child list ends in
`draw`, not `endPass`. -/
theorem c4_counterexample :
    (ReplayCommandBuffer.consumeCommands regC
        [TraceEncCmd.beginRenderPass beginArgsC, TraceEncCmd.draw drawArgsC]).1
      = [CBCommand.renderPass { commands :=
          [RPCommand.beginRenderPass resolvedBeginArgsC, RPCommand.draw drawArgsC] }]
    ∧ ([RPCommand.beginRenderPass resolvedBeginArgsC, RPCommand.draw drawArgsC].getLast?
        = some (RPCommand.draw drawArgsC))
    ∧ RPCommand.draw drawArgsC ≠ RPCommand.endPass := by
  refine ⟨?_, rfl, by decide⟩
  simp [ReplayCommandBuffer.consumeCommands, ReplayRenderPass.consumeCommands,
    ReplayRenderPass.consumeCommandsAux, RPConsumed.push, CBConsumed.push, CBConsumed.withLog,
    resolveBeginRenderPassArgs, beginArgsC, resolvedBeginArgsC, regC, texViewRefC]

/-- C4 (amended).  The render-pass walk always produces a non-empty child
list starting with the begin-marker; when the remaining stream contains an
`endPass` the child list also ends with the end-marker; a begin without a
matching end is reported through a failed (non-fatal) assertion, and the
pass is still produced, without a terminating marker. -/
theorem c4_amended (replay : Registry) (beginCmd : RPCommand) (stream : List TraceEncCmd) :
    (ReplayRenderPass.consumeCommands replay beginCmd stream).1 ≠ []
    ∧ (ReplayRenderPass.consumeCommands replay beginCmd stream).1.head? = some beginCmd
    ∧ (TraceEncCmd.endPass ∈ stream →
        (ReplayRenderPass.consumeCommands replay beginCmd stream).1.getLast?
          = some RPCommand.endPass)
    ∧ (TraceEncCmd.endPass ∉ stream →
        LogEntry.assertFail "BeginRenderPass command does not have an associated EndPass."
          ∈ (ReplayRenderPass.consumeCommands replay beginCmd stream).2.2) := by
  refine ⟨?_, ?_, ?_, ?_⟩
  · simp [ReplayRenderPass.consumeCommands, RPConsumed.push]
  · simp [ReplayRenderPass.consumeCommands, RPConsumed.push]
  · intro h
    obtain ⟨hne, hlast⟩ := ReplayRenderPass.consumeCommandsAux_getLast_endPass replay stream h
    simp only [ReplayRenderPass.consumeCommands, RPConsumed.push]
    rw [getLast?_cons_of_ne_nil _ hne]
    exact hlast
  · intro h
    simpa [ReplayRenderPass.consumeCommands, RPConsumed.push] using
      ReplayRenderPass.consumeCommandsAux_unterminated_reported replay stream h

/-- C4 witness: the amended theorem applied at a concrete terminated
stream. -/
theorem c4_amended_witness :
    (ReplayRenderPass.consumeCommands regC (RPCommand.beginRenderPass resolvedBeginArgsC)
        [TraceEncCmd.draw drawArgsC, TraceEncCmd.endPass]).1.getLast?
      = some RPCommand.endPass :=
  (c4_amended regC (RPCommand.beginRenderPass resolvedBeginArgsC)
    [TraceEncCmd.draw drawArgsC, TraceEncCmd.endPass]).2.2.1 (by decide)

/-- C5.  Replaying a resolved render pass to the begin-marker path (pass-
internal index 0): nothing is encoded (no `beginRenderPass`, draw or bind
call reaches the encoder) and the session state becomes exactly the
resolved begin arguments of the pass.  Hypotheses: the first stored command is
the begin-marker (which resolution guarantees) and the pass has a first
color attachment (otherwise the preceding
`renderPassDesc.colorAttachments[0].viewState` read throws before the
index-0 check is reached). -/
theorem c5_encodeUpTo_begin_marker (rp : ReplayRenderPassModel)
    (args : ReplayBeginRenderPassArgs) (s : Session)
    (hhead : rp.commands.head? = some (RPCommand.beginRenderPass args))
    (hatt : args.colorAttachments ≠ []) :
    ReplayRenderPass.encodeUpTo rp [0] s
      = ([], { s with state := StateVal.beginArgs args }, none) := by
  unfold ReplayRenderPass.encodeUpTo
  rw [hhead]
  cases hca : args.colorAttachments with
  | nil => exact absurd hca hatt
  | cons a rest => simp [hca]

/-- C5 witness: the theorem applied at the concrete begin/draw/end pass. -/
theorem c5_witness :
    ReplayRenderPass.encodeUpTo renderPassC [0] sessionC
      = ([], { sessionC with state := StateVal.beginArgs resolvedBeginArgsC }, none) :=
  c5_encodeUpTo_begin_marker renderPassC resolvedBeginArgsC sessionC rfl (by decide)

/-- `lookup` through a value-mapping of an association list. -/
theorem lookup_map_value {β γ : Type} (f : β → γ) :
    ∀ (l : List (Nat × β)) (s : Nat),
      (l.map fun p => (p.1, f p.2)).lookup s = (l.lookup s).map f := by
  intro l
  induction l with
  | nil => intro s; simp [List.lookup]
  | cons p rest ih =>
    intro s
    by_cases h : s = p.1
    · simp [List.lookup, h]
    · have hb : (s == p.1) = false := beq_false_of_ne h
      simp [List.lookup, hb, ih]

/-- C6.  For every bind-group layout whose descriptor is implicit (no
`entries`), the layout constructed in the layout phase has no live handle,
and after the implicit-layout pass (which runs once all render pipelines are
created) its live handle is exactly the result of querying the owning
pipeline recorded in its descriptor, at the recorded group
index. -/
theorem c6_implicit_layout (trace : Trace) (s : Nat) (dBgl : TraceBindGroupLayout)
    (p : ReplayRenderPipelineModel)
    (hbgl : trace.bindGroupLayouts.lookup s = some dBgl)
    (himpl : dBgl.entries = none)
    (hp : (Replay.loadPhases trace).renderPipelines.lookup dBgl.renderPipelineSerial = some p) :
    ((Replay.loadPhases trace).bindGroupLayouts.lookup s).map (fun l => l.webgpuObject)
        = some (some (GpuHandle.getBindGroupLayout p.webgpuObject dBgl.groupIndex))
    ∧ (ReplayBindGroupLayout.construct dBgl).webgpuObject = none := by
  constructor
  · simp only [Replay.loadPhases] at hp ⊢
    rw [lookup_map_value, lookup_map_value, hbgl]
    have himplicit : (ReplayBindGroupLayout.construct dBgl).implicit = true := by
      simp [ReplayBindGroupLayout.construct, himpl]
    simp only [Option.map_some']
    simp only [implicitPassStep, himplicit, if_pos,
      ReplayBindGroupLayout.initializeFromImplicitDesc]
    have hdesc : (ReplayBindGroupLayout.construct dBgl).desc = dBgl := rfl
    rw [hdesc, hp]
    rfl
  · simp [ReplayBindGroupLayout.construct, himpl]

/-- A trace shader module (serial 4). -/
def smDescC : TraceShaderModule := { deviceSerial := 0, code := "vs" }

/-- A trace render pipeline (serial 6) with `layout: auto`. -/
def rpDescC : TraceRenderPipeline :=
  { deviceSerial := 0, label := none,
    vertex := { moduleSerial := 4, module := none, entryPoint := "main" },
    fragment := none, layout := TraceLayoutField.auto, layoutSerial := none,
    primitive := none, depthStencil := none, multisample := none }

/-- An implicit trace bind-group layout (serial 2) owned by pipeline 6 at
group index 1. -/
def bglDescC : TraceBindGroupLayout :=
  { deviceSerial := 0, entries := none, renderPipelineSerial := 6, groupIndex := 1 }

/-- A trace with one shader module, one implicit layout, one pipeline. -/
def traceC : Trace :=
  { shaderModules := [(4, smDescC)], bindGroupLayouts := [(2, bglDescC)],
    renderPipelines := [(6, rpDescC)], commands := [] }

/-- The pipeline wrapper `loadPhases traceC` produces for serial 6. -/
def pipelineLoadedC : ReplayRenderPipelineModel :=
  { deviceSerial := 0
    desc := { rpDescC with vertex := { moduleSerial := 4, module := some 4, entryPoint := "main" } }
    webgpuObject := GpuHandle.createdRenderPipeline 0 "vs" none none }

/-- C6 witness: the theorem applied at the concrete one-pipeline trace. -/
theorem c6_witness :
    ((Replay.loadPhases traceC).bindGroupLayouts.lookup 2).map (fun l => l.webgpuObject)
      = some (some (GpuHandle.getBindGroupLayout
          (GpuHandle.createdRenderPipeline 0 "vs" none none) 1)) :=
  (c6_implicit_layout traceC 2 bglDescC pipelineLoadedC rfl rfl rfl).1

/-- Render-pass level: on recognized commands the enumerator agrees with the
claim-side enumeration. -/
theorem rpIterate_eq_spec (i j k : Nat) :
    ∀ (cmds : List RPCommand) (l : Nat), (∀ c ∈ cmds, RPCommand.recognized c = true) →
      ReplayRenderPass.iterateCommandsFrom i j k l cmds = specRPEnumFrom i j k l cmds := by
  intro cmds
  induction cmds with
  | nil => intro l _; rfl
  | cons c rest ih =>
    intro l h
    have hc := h c (List.mem_cons_self c rest)
    have hrest : ∀ c ∈ rest, RPCommand.recognized c = true :=
      fun x hx => h x (List.mem_cons_of_mem c hx)
    cases c
    case other name => simp [RPCommand.recognized] at hc
    all_goals
      simp [ReplayRenderPass.iterateCommandsFrom, specRPEnumFrom, ih _ hrest]

/-- Command-buffer level: on recognized commands the enumerator agrees with
the claim-side enumeration. -/
theorem cbIterate_eq_spec (i j : Nat) :
    ∀ (cmds : List CBCommand) (k : Nat), (∀ c ∈ cmds, CBCommand.recognized c = true) →
      ReplayCommandBuffer.iterateCommandsFrom i j k cmds = specCBEnumFrom i j k cmds := by
  intro cmds
  induction cmds with
  | nil => intro k _; rfl
  | cons c rest ih =>
    intro k h
    have hc := h c (List.mem_cons_self c rest)
    have hrest : ∀ c ∈ rest, CBCommand.recognized c = true :=
      fun x hx => h x (List.mem_cons_of_mem c hx)
    cases c
    case other name => simp [CBCommand.recognized] at hc
    case renderPass rp =>
      have hrp : ∀ c ∈ rp.commands, RPCommand.recognized c = true := by
        simpa [CBCommand.recognized, List.all_eq_true] using hc
      simp [ReplayCommandBuffer.iterateCommandsFrom, specCBEnumFrom, ih _ hrest,
        ReplayRenderPass.iterateCommands, rpIterate_eq_spec i j k rp.commands 0 hrp]
    all_goals
      simp [ReplayCommandBuffer.iterateCommandsFrom, specCBEnumFrom, ih _ hrest]

/-- Submit level: on recognized commands the enumerator agrees with the
claim-side enumeration. -/
theorem submitIterate_eq_spec (i : Nat) :
    ∀ (cbs : List ReplayCommandBufferModel) (j : Nat),
      (∀ cb ∈ cbs, ∀ c ∈ cb.commands, CBCommand.recognized c = true) →
      Replay.submitIterateFrom i j cbs = specSubmitEnumFrom i j cbs := by
  intro cbs
  induction cbs with
  | nil => intro j _; rfl
  | cons cb rest ih =>
    intro j h
    have hcb := h cb (List.mem_cons_self cb rest)
    have hrest : ∀ cb ∈ rest, ∀ c ∈ cb.commands, CBCommand.recognized c = true :=
      fun x hx => h x (List.mem_cons_of_mem cb hx)
    simp [Replay.submitIterateFrom, specSubmitEnumFrom, ih _ hrest,
      ReplayCommandBuffer.iterateCommands, cbIterate_eq_spec i j cb.commands 0 hcb]

/-- Top level: on recognized commands the enumerator agrees with the
claim-side enumeration. -/
theorem topIterate_eq_spec :
    ∀ (cmds : List ReplayQueueCommand) (i : Nat),
      (∀ c ∈ cmds, ReplayQueueCommand.recognized c = true) →
      Replay.iterateCommandsFrom i cmds = specEnumFrom i cmds := by
  intro cmds
  induction cmds with
  | nil => intro i _; rfl
  | cons c rest ih =>
    intro i h
    have hc := h c (List.mem_cons_self c rest)
    have hrest : ∀ c ∈ rest, ReplayQueueCommand.recognized c = true :=
      fun x hx => h x (List.mem_cons_of_mem c hx)
    cases c
    case badCommand => simp [ReplayQueueCommand.recognized] at hc
    case queueSubmit queue commandBuffers =>
      have hcbs : ∀ cb ∈ commandBuffers, ∀ c ∈ cb.commands, CBCommand.recognized c = true := by
        simpa [ReplayQueueCommand.recognized, List.all_eq_true] using hc
      simp [Replay.iterateCommandsFrom, specEnumFrom, ih _ hrest,
        submitIterate_eq_spec i commandBuffers 0 hcbs]
    all_goals
      simp [Replay.iterateCommandsFrom, specEnumFrom, ih _ hrest]

/-- C7.  For a resolved tree all of whose commands are of recognized kinds
(no retained unrecognized command and no `bad-command` placeholder — which
resolution only produces from trace commands outside the recognized set,
reported under C3), the enumerator emits exactly the claim-side document-
order enumeration: one (path, command) pair per leaf command, with a
top-level non-submit command at `[i]`, a command of buffer `j` of submit `i`
at `[i, j, k]`, and a child `l` of a render-pass pseudo-command at encoder
index `k` at `[i, j, k, l]`.  Both sides are pure functions producing finite
lists, so the sequence is finite and restartable from the beginning. -/
theorem c7_iterateCommands_eq_specEnumerate (r : Replay)
    (h : ∀ c ∈ r.commands, ReplayQueueCommand.recognized c = true) :
    Replay.iterateCommands r = specEnumerate r :=
  topIterate_eq_spec r.commands 0 h

/-- A replay with a leaf `present`, then a submit of one command buffer
holding a debug group around a render pass. -/
def replayC7 : Replay :=
  { commands :=
      [ReplayQueueCommand.present (texRefC 2) 1,
       ReplayQueueCommand.queueSubmit queueC
         [{ commands := [CBCommand.pushDebugGroup "x",
                         CBCommand.renderPass renderPassC,
                         CBCommand.popDebugGroup] }]]
    data := dataC }

/-- C7 witness: the theorem applied at a concrete two-command tree. -/
theorem c7_witness :
    Replay.iterateCommands replayC7 = specEnumerate replayC7 :=
  c7_iterateCommands_eq_specEnumerate replayC7 (by decide)

/-- C8 counterexample.  The claim says reconstruction and resolution never
mutate the loaded Trace value.  `ReplayRenderPipeline.recreate` does:
`this.desc` aliases the trace descriptor and the function writes the
resolved shader-module wrapper into `this.desc.vertex.module`.  For the
concrete one-pipeline trace the post-load trace differs from the loaded
trace exactly there. -/
theorem c8_counterexample :
    ((Replay.loadPhases traceC).traceAfter.renderPipelines.lookup 6).map
        (fun d => d.vertex.module) = some (some 4)
    ∧ (traceC.renderPipelines.lookup 6).map (fun d => d.vertex.module) = some none
    ∧ (Replay.loadPhases traceC).traceAfter ≠ traceC := by
  refine ⟨rfl, rfl, ?_⟩
  intro h
  have := congrArg (fun t => (t.renderPipelines.lookup 6).map fun d => d.vertex.module) h
  simp [traceC, Replay.loadPhases, ReplayRenderPipeline.recreate, Trace.shaderModuleRegistry,
    ReplayShaderModule.construct, rpDescC, List.lookup] at this

/-- C8 (amended).  Command resolution builds new values from clones
(`structuredClone`) of the trace commands, but `ReplayRenderPipeline.recreate`
mutates the trace render-pipeline descriptor it aliases: it always writes
the resolved vertex shader-module wrapper into `vertex.module`, so for every
descriptor whose captured `vertex.module` is absent the descriptor after
reconstruction differs from the captured one — the loaded Trace value is
not reusable unchanged. -/
theorem c8_amended (shaderModules : Nat → ReplayShaderModuleModel)
    (pipelineLayouts : Nat → ReplayPipelineLayoutModel) (desc : TraceRenderPipeline)
    (h : desc.vertex.module = none) :
    (ReplayRenderPipeline.recreate shaderModules pipelineLayouts desc).2.vertex.module
        = some (shaderModules desc.vertex.moduleSerial).key
    ∧ (ReplayRenderPipeline.recreate shaderModules pipelineLayouts desc).2 ≠ desc := by
  have hmod : (ReplayRenderPipeline.recreate shaderModules pipelineLayouts desc).2.vertex.module
      = some (shaderModules desc.vertex.moduleSerial).key := by
    unfold ReplayRenderPipeline.recreate
    cases hf : desc.fragment <;> cases hl : desc.layout <;> simp [hf, hl]
  refine ⟨hmod, fun heq => ?_⟩
  rw [heq] at hmod
  rw [h] at hmod
  exact Option.noConfusion hmod

/-- C8 witness: the amended theorem applied at the concrete pipeline
descriptor (whose captured `vertex.module` is absent). -/
theorem c8_amended_witness :
    (ReplayRenderPipeline.recreate (Trace.shaderModuleRegistry traceC)
        Trace.pipelineLayoutRegistry rpDescC).2 ≠ rpDescC :=
  (c8_amended (Trace.shaderModuleRegistry traceC) Trace.pipelineLayoutRegistry rpDescC rfl).2

/-- A texture descriptor recorded as destroyed that also carries initial
data. -/
def texDescDestroyedC : TraceTexture :=
  { deviceSerial := 0, size := { width := 4, height := 4, depthOrArrayLayers := 1 },
    format := "rgba8unorm", sampleCount := 1, mipLevelCount := 1, dimension := some "2d",
    usage := 16, state := "destroyed",
    initialData := some [{ data := { serial := 9, size := 64 }, mipLevel := 0, bytesPerRow := 16 }],
    viewFormats := [], swapChainId := none }

/-- A texture descriptor recorded as destroyed without initial data. -/
def texDescDestroyedNoDataC : TraceTexture :=
  { texDescDestroyedC with initialData := none }

/-- C9 counterexample.  The claim says a texture recorded as destroyed is
destroyed immediately after creation and no initial-data write is performed,
regardless of whether the descriptor also carries initial data.  The
constructor runs `if (initialData) loadInitialData(...) else if (state ==
destroyed) destroy()`: with both present, the write happens and the
destroy does not. -/
theorem c9_counterexample :
    (ReplayTexture.construct dataC texDescDestroyedC).2
      = [GpuOp.createTexture (GpuHandle.device 0) "rgba8unorm" 23
           { width := 4, height := 4, depthOrArrayLayers := 1 } (some "2d") 1 1 [],
         GpuOp.writeTextureSub (GpuHandle.queueOf 0)
           (GpuHandle.createdTexture texDescDestroyedC) 0 [1, 2, 3] 16 4
           { width := 4, height := 4, depthOrArrayLayers := 1 }]
    ∧ GpuOp.destroyTexture (GpuHandle.createdTexture texDescDestroyedC)
        ∉ (ReplayTexture.construct dataC texDescDestroyedC).2 := by
  exact ⟨rfl, by decide⟩

/-- `loadInitialData` only ever emits `writeTexture` calls. -/
theorem ReplayTexture.loadInitialData_no_destroy (data : Nat → List Nat) (deviceSerial : Nat)
    (tex : ReplayTextureModelFull) (initialData : List TraceTextureInitialData) (t : GpuHandle) :
    GpuOp.destroyTexture t ∉ ReplayTexture.loadInitialData data deviceSerial tex initialData := by
  unfold ReplayTexture.loadInitialData
  split
  · simp
  · split
    · simp
    · intro hmem
      obtain ⟨sub, _, heq⟩ := List.mem_map.mp hmem
      exact GpuOp.noConfusion heq

/-- C9 (amended).  A texture recorded as destroyed is destroyed immediately
after creation *when the descriptor carries no initial data*; a descriptor
that carries initial data has its subresource writes performed and the
texture is never destroyed, even when its recorded state is destroyed. -/
theorem c9_amended (data : Nat → List Nat) (desc : TraceTexture) :
    (desc.initialData = none → desc.state = "destroyed" →
      (ReplayTexture.construct data desc).2
        = [GpuOp.createTexture (GpuHandle.device desc.deviceSerial) desc.format
             (desc.usage ||| GPUTextureUsage.COPY_SRC ||| GPUTextureUsage.COPY_DST |||
               GPUTextureUsage.TEXTURE_BINDING)
             desc.size desc.dimension desc.mipLevelCount desc.sampleCount desc.viewFormats,
           GpuOp.destroyTexture (GpuHandle.createdTexture desc)])
    ∧ (∀ d, desc.initialData = some d →
        GpuOp.destroyTexture (GpuHandle.createdTexture desc)
          ∉ (ReplayTexture.construct data desc).2) := by
  constructor
  · intro hnone hdestroyed
    unfold ReplayTexture.construct
    rw [hnone]
    simp [hdestroyed]
  · intro d hsome
    unfold ReplayTexture.construct
    rw [hsome]
    intro hmem
    rcases List.mem_cons.mp hmem with h1 | h2
    · exact GpuOp.noConfusion h1
    · exact ReplayTexture.loadInitialData_no_destroy data desc.deviceSerial _ d _ h2

/-- C9 witness: the amended theorem applied at the destroyed-without-data
descriptor. -/
theorem c9_amended_witness :
    (ReplayTexture.construct dataC texDescDestroyedNoDataC).2
      = [GpuOp.createTexture (GpuHandle.device 0) "rgba8unorm" 23
           { width := 4, height := 4, depthOrArrayLayers := 1 } (some "2d") 1 1 [],
         GpuOp.destroyTexture (GpuHandle.createdTexture texDescDestroyedNoDataC)] :=
  (c9_amended dataC texDescDestroyedNoDataC).1 rfl rfl

/-- `a` is a subset of `b` as bit-flag sets: every set bit of `a` is set in
`b`. -/
def FlagsSubset (a b : Nat) : Prop := a &&& b = a

/-- `b` is a *strict* superset of `a` as bit-flag sets. -/
def StrictFlagsSuperset (b a : Nat) : Prop := FlagsSubset a b ∧ a ≠ b

/-- OR-ing flags preserves the original bits: `u &&& (u ||| c) = u`. -/
theorem land_lor_self (u c : Nat) : u &&& (u ||| c) = u := by
  apply Nat.eq_of_testBit_eq
  intro i
  rw [Nat.testBit_land, Nat.testBit_lor]
  cases u.testBit i <;> simp

/-- If OR-ing `c` into `u` changes nothing, `u` already contained every bit
of `c`. -/
theorem lor_eq_self_imp_land (u c : Nat) (h : u ||| c = u) : u &&& c = c := by
  apply Nat.eq_of_testBit_eq
  intro i
  have hbit := congrArg (fun x => Nat.testBit x i) h
  simp only [Nat.testBit_lor] at hbit
  rw [Nat.testBit_land]
  cases hu : u.testBit i <;> cases hc : c.testBit i <;> simp_all

/-- A buffer descriptor whose recorded usage is exactly
`COPY_SRC | COPY_DST` (= 12). -/
def bufDescC12 : TraceBuffer :=
  { deviceSerial := 0, usage := 12, size := 256, state := "unmapped", initialData := none }

/-- A texture descriptor whose recorded usage is exactly
`COPY_SRC | COPY_DST | TEXTURE_BINDING` (= 7). -/
def texDescC7 : TraceTexture :=
  { deviceSerial := 0, size := { width := 4, height := 4, depthOrArrayLayers := 1 },
    format := "rgba8unorm", sampleCount := 1, mipLevelCount := 1, dimension := some "2d",
    usage := 7, state := "available", initialData := none, viewFormats := [],
    swapChainId := none }

/-- C10 counterexample.  The claim says the created usage is a *strict*
superset of the recorded usage.  When the recorded usage already contains
the always-added flags, the created usage equals the recorded one: a buffer
recorded with usage 12 is created with usage 12, and a texture recorded
with usage 7 is created with usage 7 — supersets, but not strict. -/
theorem c10_counterexample :
    (ReplayBuffer.construct dataC bufDescC12).2
        = [GpuOp.createBuffer (GpuHandle.device 0) 12 256 false]
    ∧ ¬ StrictFlagsSuperset 12 bufDescC12.usage
    ∧ (ReplayTexture.construct dataC texDescC7).2
        = [GpuOp.createTexture (GpuHandle.device 0) "rgba8unorm" 7
             { width := 4, height := 4, depthOrArrayLayers := 1 } (some "2d") 1 1 []]
    ∧ ¬ StrictFlagsSuperset 7 texDescC7.usage := by
  refine ⟨rfl, fun h => h.2 rfl, rfl, fun h => h.2 rfl⟩

/-- C10 (amended).  The live object is always created with a usage that is a
(not necessarily strict) superset of the recorded usage — the recorded bits
are always preserved — and the superset is strict exactly when the recorded
usage does not already contain all the always-added flags (`COPY_SRC |
COPY_DST` = 12 for buffers; `COPY_SRC | COPY_DST | TEXTURE_BINDING` = 7
for textures). -/
theorem c10_amended (data : Nat → List Nat) (descB : TraceBuffer) (descT : TraceTexture) :
    (ReplayBuffer.construct data descB).2.head?
        = some (GpuOp.createBuffer (GpuHandle.device descB.deviceSerial)
            (descB.usage ||| GPUBufferUsage.COPY_SRC ||| GPUBufferUsage.COPY_DST) descB.size
            (descB.state == "mapped-at-creation"))
    ∧ FlagsSubset descB.usage
        (descB.usage ||| GPUBufferUsage.COPY_SRC ||| GPUBufferUsage.COPY_DST)
    ∧ (descB.usage &&& 12 ≠ 12 →
        descB.usage ||| GPUBufferUsage.COPY_SRC ||| GPUBufferUsage.COPY_DST ≠ descB.usage)
    ∧ (ReplayTexture.construct data descT).2.head?
        = some (GpuOp.createTexture (GpuHandle.device descT.deviceSerial) descT.format
            (descT.usage ||| GPUTextureUsage.COPY_SRC ||| GPUTextureUsage.COPY_DST |||
              GPUTextureUsage.TEXTURE_BINDING)
            descT.size descT.dimension descT.mipLevelCount descT.sampleCount descT.viewFormats)
    ∧ FlagsSubset descT.usage
        (descT.usage ||| GPUTextureUsage.COPY_SRC ||| GPUTextureUsage.COPY_DST |||
          GPUTextureUsage.TEXTURE_BINDING)
    ∧ (descT.usage &&& 7 ≠ 7 →
        descT.usage ||| GPUTextureUsage.COPY_SRC ||| GPUTextureUsage.COPY_DST |||
          GPUTextureUsage.TEXTURE_BINDING ≠ descT.usage) := by
  have hb12 : descB.usage ||| GPUBufferUsage.COPY_SRC ||| GPUBufferUsage.COPY_DST
      = descB.usage ||| 12 := by
    rw [Nat.or_assoc]; rfl
  have ht7 : descT.usage ||| GPUTextureUsage.COPY_SRC ||| GPUTextureUsage.COPY_DST |||
      GPUTextureUsage.TEXTURE_BINDING = descT.usage ||| 7 := by
    rw [Nat.or_assoc, Nat.or_assoc]; rfl
  refine ⟨?_, ?_, ?_, ?_, ?_, ?_⟩
  · unfold ReplayBuffer.construct
    cases descB.initialData <;> simp
  · unfold FlagsSubset
    rw [hb12]
    exact land_lor_self descB.usage 12
  · intro hne heq
    rw [hb12] at heq
    exact hne (lor_eq_self_imp_land descB.usage 12 heq)
  · unfold ReplayTexture.construct
    cases descT.initialData
    · by_cases hd : descT.state == "destroyed" <;> simp [hd]
    · simp
  · unfold FlagsSubset
    rw [ht7]
    exact land_lor_self descT.usage 7
  · intro hne heq
    rw [ht7] at heq
    exact hne (lor_eq_self_imp_land descT.usage 7 heq)

/-- C10 witness: the amended theorem applied at a buffer recorded with
usage 2 (`MAP_WRITE`), where the superset is strict. -/
theorem c10_amended_witness :
    (2 : Nat) ||| GPUBufferUsage.COPY_SRC ||| GPUBufferUsage.COPY_DST
      ≠ (2 : Nat) :=
  (c10_amended dataC { bufDescC12 with usage := 2 } texDescC7).2.2.1 (by decide)
